import Mathlib

/-!
# Verification of the shioaji-api-dashboard messaging and orchestration layer

Shallow embedding of the repository's request/response protocol
(`trading_queue.py`), worker runtime (`trading_worker.py`, `trading.py`) and
orchestrator (`orchestrator/worker_manager.py`, `admin/tenant_service.py`),
together with proofs of the testable properties stated in the specification.

Python dicts whose values travel through `json.dumps`/`json.loads` are
modelled at the JSON-value level (`Json` below): the Python `json` library's
string encoding/decoding is treated as the identity embedding into this value
domain, so `to_json`/`from_json` are modelled as the repository-owned layer
around it (`dataclasses.asdict` and `cls(**d)`).  Numeric payloads are
modelled as integers (no claim touches fractional values).
-/

namespace Shioaji

/-- JSON-compatible value domain carried by queue messages. -/
inductive Json where
  | null : Json
  | bool (b : Bool) : Json
  | num (n : Int) : Json
  | str (s : String) : Json
  | arr (xs : List Json) : Json
  | obj (fields : List (String × Json)) : Json
deriving Repr

/-- Look a key up in a JSON object's field list (Python `d[key]` /
`dict.get`), first binding wins as with parsed JSON objects. -/
def Json.lookup (j : Json) (key : String) : Option Json :=
  match j with
  | .obj fields => fields.lookup key
  | _ => none

/-- Python `value == "literal"` on a decoded JSON value: true exactly when
the value is that string. -/
def Json.eqStr (j : Json) (s : String) : Bool :=
  match j with
  | .str t => t = s
  | _ => false

/-- `TradingRequest` dataclass of `trading_queue.py`: correlation id,
operation string, simulation flag and operation-specific params. -/
structure TradingRequest where
  request_id : String
  operation : String
  simulation : Bool
  params : List (String × Json)
deriving Repr

/-- `TradingRequest.to_json`: `json.dumps(asdict(self))`, modelled at the
JSON-value level as the `asdict` record. -/
def TradingRequest.to_json (r : TradingRequest) : Json :=
  .obj [("request_id", .str r.request_id),
        ("operation", .str r.operation),
        ("simulation", .bool r.simulation),
        ("params", .obj r.params)]

/-- `TradingRequest.from_json`: `cls(**json.loads(data))`; fails (raises)
unless the decoded object carries exactly the dataclass's keys. -/
def TradingRequest.from_json (j : Json) : Option TradingRequest :=
  match j with
  | .obj [("request_id", .str rid), ("operation", .str op),
          ("simulation", .bool sim), ("params", .obj ps)] =>
    some ⟨rid, op, sim, ps⟩
  | _ => none

/-- `TradingResponse` dataclass of `trading_queue.py`.  `data` is
`Optional[Any] = None`: a Python `None` and a JSON `null` are the same value,
so the field is modelled as `Json` with `.null` for the default. -/
structure TradingResponse where
  request_id : String
  success : Bool
  data : Json := .null
  error : Option String := none
deriving Repr

/-- `TradingResponse.to_json`: `json.dumps(asdict(self))` at the JSON-value
level; an absent `error` serializes as `null`. -/
def TradingResponse.to_json (r : TradingResponse) : Json :=
  .obj [("request_id", .str r.request_id),
        ("success", .bool r.success),
        ("data", r.data),
        ("error", match r.error with | none => .null | some e => .str e)]

/-- `TradingResponse.from_json`: `cls(**json.loads(data))`. -/
def TradingResponse.from_json (j : Json) : Option TradingResponse :=
  match j with
  | .obj [("request_id", .str rid), ("success", .bool ok),
          ("data", d), ("error", err)] =>
    match err with
    | .null => some ⟨rid, ok, d, none⟩
    | .str e => some ⟨rid, ok, d, some e⟩
    | _ => none
  | _ => none

/-- The ten members of the `TradingOperation` enum. -/
def tradingOperations : List String :=
  ["get_symbols", "get_symbol_info", "get_contract_codes", "get_positions",
   "get_futures_overview", "get_product_contracts", "place_entry_order",
   "place_exit_order", "check_order_status", "ping"]

end Shioaji

namespace Shioaji

/-! ## Tenant service: worker instances and Redis-DB slot allocation
(`admin/tenant_service.py`, `models/tenant.py`) -/

/-- `WorkerStatus` enum of `models/tenant.py`. -/
inductive WorkerStatus where
  | pending | starting | running | hibernating | stopping | stopped | error
deriving DecidableEq, Repr

/-- Terminal-ish statuses in the sense of the orchestrator's `create` check
(`worker_manager.py` line 172): anything other than `stopped`/`error` counts
as an existing, live instance. -/
def WorkerStatus.nonTerminal : WorkerStatus → Bool
  | .stopped => false
  | .error => false
  | _ => true

/-- Statuses whose `redis_db` is treated as in use by
`TenantService.allocate_redis_db` (the `status.in_` filter). -/
def WorkerStatus.active : WorkerStatus → Bool
  | .pending => true
  | .starting => true
  | .running => true
  | .hibernating => true
  | _ => false

/-- `WorkerInstance` row (the columns the orchestrator code reads/writes). -/
structure WorkerInstance where
  tenantId : Nat
  redisDb : Nat
  status : WorkerStatus
  containerId : Option String := none
  containerName : Option String := none
  startedAt : Option Nat := none
  stoppedAt : Option Nat := none
  errorMessage : Option String := none
deriving DecidableEq, Repr

/-- Persisted orchestrator state: the `worker_instances` relation and the
append-only audit log (entries as action-string / tenant-id pairs; the
structured detail payload is not modelled). -/
structure DbState where
  instances : List WorkerInstance
  auditLog : List (String × Nat) := []
deriving DecidableEq, Repr

/-- `TenantService.get_worker_instance`: `.filter(tenant_id ==).first()`. -/
def getWorkerInstance (db : DbState) (tenantId : Nat) : Option WorkerInstance :=
  db.instances.find? (fun i => i.tenantId = tenantId)

/-- Redis-DB numbers used by instances in an allocation-relevant status
(the `used_dbs` set of `allocate_redis_db`). -/
def usedDbs (db : DbState) : List Nat :=
  db.instances.filterMap (fun i => if i.status.active then some i.redisDb else none)

/-- `TenantService.allocate_redis_db`: first `db_num in range(16)` not in
`used_dbs`, else `TenantServiceError`. -/
def allocateRedisDb (db : DbState) : Except String Nat :=
  match (List.range 16).find? (fun n => ¬ n ∈ usedDbs db) with
  | some n => .ok n
  | none => .error "No available Redis database slots (max 15 tenants)"

/-- Remove the first list element satisfying a predicate. -/
def removeFirst (p : α → Bool) : List α → List α
  | [] => []
  | x :: xs => if p x then xs else x :: removeFirst p xs

/-- `TenantService.release_redis_db`: delete the tenant's instance row if one
exists (releasing its slot implicitly). -/
def releaseRedisDb (db : DbState) (tenantId : Nat) : DbState :=
  match getWorkerInstance db tenantId with
  | none => db
  | some _ =>
    { db with instances := removeFirst (fun i => i.tenantId = tenantId) db.instances }

end Shioaji

namespace Shioaji

/-! ## Worker runtime (`trading_worker.py`, `trading.py`)

The Shioaji SDK, the Redis client and the process environment are external
collaborators; their behaviour during one request is captured by an
environment record `SjEnv` (login outcomes per attempt, contract catalogue,
position list, order-placement outcome, logout outcome).  The worker's own
mutable state (`api_clients`, `pending_trades`, `_last_successful_request`,
`_invalidating`) is threaded explicitly.  `DEV_MOCK_MODE` is modelled as
disabled (its default). -/

/-- Python exceptions distinguished by the worker's handlers. -/
inductive PyErr where
  | tokenError (m : String)
  | systemMaintenance (m : String)
  | sjTimeout (m : String)
  | accountNotSign (m : String)
  | accountNotProvide (m : String)
  | targetContractNotExist (m : String)
  | valueError (m : String)
  | runtimeError (m : String)
  | keyError (key : String)
  | typeError (m : String)
  | attributeError (m : String)
deriving DecidableEq, Repr

/-- Python `str(e)`.  For `KeyError` the str of the exception is the quoted
key. -/
def PyErr.msg : PyErr → String
  | .tokenError m => m
  | .systemMaintenance m => m
  | .sjTimeout m => m
  | .accountNotSign m => m
  | .accountNotProvide m => m
  | .targetContractNotExist m => m
  | .valueError m => m
  | .runtimeError m => m
  | .keyError k => "\x27" ++ k ++ "\x27"
  | .typeError m => m
  | .attributeError m => m

/-- Python `type(e).__name__` (`SjTimeoutError` is imported under the class
name `TimeoutError`). -/
def PyErr.typeName : PyErr → String
  | .tokenError _ => "TokenError"
  | .systemMaintenance _ => "SystemMaintenance"
  | .sjTimeout _ => "TimeoutError"
  | .accountNotSign _ => "AccountNotSignError"
  | .accountNotProvide _ => "AccountNotProvideError"
  | .targetContractNotExist _ => "TargetContractNotExistError"
  | .valueError _ => "ValueError"
  | .runtimeError _ => "RuntimeError"
  | .keyError _ => "KeyError"
  | .typeError _ => "TypeError"
  | .attributeError _ => "AttributeError"

/-- The tuple caught by `_handle_request`'s first `except` clause:
`(TokenError, SystemMaintenance, SjTimeoutError)`. -/
def PyErr.isTypedConnectionError : PyErr → Bool
  | .tokenError _ => true
  | .systemMaintenance _ => true
  | .sjTimeout _ => true
  | _ => false

/-- The tuple caught inside `_handle_entry_order` / `_handle_exit_order`:
`(TargetContractNotExistError, AccountNotSignError, AccountNotProvideError)`
— the business-rejection errors. -/
def PyErr.isBusinessTyped : PyErr → Bool
  | .accountNotSign _ => true
  | .accountNotProvide _ => true
  | .targetContractNotExist _ => true
  | _ => false

/-- `hay` contains `needle` as a contiguous run (Python `needle in hay`). -/
def containsSub (needle : List Char) : List Char → Bool
  | [] => needle.isEmpty
  | c :: rest => needle.isPrefixOf (c :: rest) || containsSub needle rest

/-- `connection_error_patterns` of `_handle_request` (line 744). -/
def connectionErrorPatterns : List String :=
  ["token is expired", "token expired", "status_code\x27: 401",
   "statuscode: 401", "not ready", "session down", "connection refused",
   "connection reset"]

/-- The pattern-based fallback classifier: any pattern occurs in the
lowercased exception text. -/
def isConnectionErrorStr (s : String) : Bool :=
  connectionErrorPatterns.any (fun p => containsSub p.data s.toLower.data)

/-- `Action` enum of the SDK (`sj.constant.Action`). -/
inductive Action where
  | Buy | Sell
deriving DecidableEq, Repr

/-- `Action.value` string. -/
def Action.val : Action → String
  | .Buy => "Buy"
  | .Sell => "Sell"

/-- Futures contract record (the SDK contract fields the code reads).
Numeric price fields are modelled as integers. -/
structure Contract where
  symbol : String
  code : String
  name : String := ""
  category : String := ""
  deliveryMonth : String := ""
  underlyingKind : String := ""
  limitUp : Int := 0
  limitDown : Int := 0
  reference : Int := 0
deriving DecidableEq, Repr

/-- Brokerage position record (fields read by `get_current_position` and the
`get_positions` handler). -/
structure Position where
  id : String := ""
  code : String
  side : Action
  direction : Action
  quantity : Int
  price : Int := 0
  lastPrice : Int := 0
  pnl : Int := 0
  ydQuantity : Int := 0
  cond : String := ""
deriving DecidableEq, Repr

/-- The `api.Order(...)` value built by the order handlers. -/
structure Order where
  action : Action
  price : Int
  quantity : Int
  priceType : String
  orderType : String
  octype : String
deriving DecidableEq, Repr

/-- `api.Order(action, price=0.0, quantity, MKT, IOC, Auto, futopt)`. -/
def mkOrder (action : Action) (quantity : Int) : Order :=
  { action := action, price := 0, quantity := quantity,
    priceType := "MKT", orderType := "IOC", octype := "Auto" }

/-- The trade object returned by `api.place_order` (fields read from
`result.order`). -/
structure OrderResult where
  orderId : String
  seqno : String
  ordno : String := ""
deriving DecidableEq, Repr

/-- One fill reported by the SDK for a trade. -/
structure Deal where
  seq : String := ""
  price : Int
  quantity : Int
  ts : Int := 0
deriving DecidableEq, Repr

/-- `trade.status` after `api.update_status` (fields read by
`_handle_check_order_status`). -/
structure TradeStatus where
  status : String
  orderQuantity : Int := 0
  dealQuantity : Int := 0
  cancelQuantity : Int := 0
  deals : List Deal := []
deriving DecidableEq, Repr

/-- Outcome of the bounded logout attempt during invalidation. -/
inductive LogoutOutcome where
  | success
  | failed (m : String)
  | timedOut
deriving DecidableEq, Repr

/-- A pair indexed by the `simulation` flag (the worker keeps one entry per
mode in its dictionaries keyed by `True`/`False`). -/
structure ModeMap (α : Type) where
  sim : α
  real : α
deriving DecidableEq, Repr

/-- Dictionary read `d[simulation]`. -/
def ModeMap.get (m : ModeMap α) (mode : Bool) : α :=
  if mode then m.sim else m.real

/-- Dictionary write `d[simulation] = a`. -/
def ModeMap.set (m : ModeMap α) (mode : Bool) (a : α) : ModeMap α :=
  if mode then { m with sim := a } else { m with real := a }

/-- The worker's mutable fields.  Sessions are identified by opaque numeric
ids; `apiClients` holds `none` where `self.api_clients[mode] is None`. -/
structure WorkerState where
  apiClients : ModeMap (Option Nat)
  pendingTrades : List (String × OrderResult)
  lastSuccessfulRequest : ModeMap Nat
  invalidating : ModeMap Bool
deriving DecidableEq, Repr

/-- Python dict assignment `d[key] = v` preserving insertion order. -/
def dictInsert (key : String) (v : α) : List (String × α) → List (String × α)
  | [] => [(key, v)]
  | (k, w) :: rest =>
    if k = key then (k, v) :: rest else (k, w) :: dictInsert key v rest

/-- External-collaborator behaviour visible to the worker while it handles
one request: per-attempt login outcomes, the session id a successful login
would produce, the SDK contract catalogue and account state, and the
order/logout call outcomes. -/
structure SjEnv where
  credsPresent : Bool := true
  loginOutcome : Nat → Except PyErr Unit
  activateCaOutcome : Except PyErr Unit := .ok ()
  freshSession : Nat
  mxf : List Contract := []
  txf : List Contract := []
  positionsResult : Except PyErr (List Position) := .ok []
  placeOrder : Contract → Order → Except PyErr OrderResult
  updateStatus : OrderResult → Except PyErr TradeStatus
  logoutOutcome : LogoutOutcome := .success
  now : Nat := 0

/-- `MAX_RECONNECT_ATTEMPTS` (module constant). -/
def MAX_RECONNECT_ATTEMPTS : Nat := 10

/-- One iteration of the login retry body: `api.login(...)` followed (for
real trading) by `self._activate_ca(api)`; any exception from either is
caught by the loop's `except` clauses. -/
def loginAttemptOnce (env : SjEnv) (simulation : Bool) (attempt : Nat) :
    Except PyErr Unit :=
  match env.loginOutcome attempt with
  | .error e => .error e
  | .ok _ => if simulation then .ok () else env.activateCaOutcome

/-- The bounded retry loop of `_get_api_client` (lines 222-256): retry on any
exception while `attempt < MAX_RECONNECT_ATTEMPTS`, re-raise on the last
attempt. -/
def tryLogin (env : SjEnv) (simulation : Bool) : Nat → Nat → Except PyErr Unit
  | _, 0 => .error (.runtimeError "Failed to connect to Shioaji after max attempts")
  | attempt, remaining + 1 =>
    match loginAttemptOnce env simulation attempt with
    | .ok _ => .ok ()
    | .error e =>
      match remaining with
      | 0 => .error e
      | _ + 1 => tryLogin env simulation (attempt + 1) remaining

/-- `_get_api_client`: return the cached session for the mode, else read
credentials and run the login retry loop; on success cache the fresh session
and record the connection time. -/
def getApiClient (env : SjEnv) (st : WorkerState) (simulation : Bool) :
    Except PyErr (Nat × WorkerState) :=
  match st.apiClients.get simulation with
  | some s => .ok (s, st)
  | none =>
    if env.credsPresent then
      match tryLogin env simulation 1 MAX_RECONNECT_ATTEMPTS with
      | .error e => .error e
      | .ok _ =>
        .ok (env.freshSession,
          { st with
            apiClients := st.apiClients.set simulation (some env.freshSession),
            lastSuccessfulRequest :=
              st.lastSuccessfulRequest.set simulation env.now })
    else
      .error (.valueError "API credentials not found. Set API_KEY/SECRET_KEY environment variables or API_KEY_FILE/SECRET_KEY_FILE for Docker secrets.")

/-- The logout attempt inside `_invalidate_connection` (lines 316-347): in
every outcome — completion, completion with error, or wall-clock timeout —
the worker only logs and leaves its own state untouched. -/
def logoutEffect (_outcome : LogoutOutcome) (st : WorkerState) : WorkerState :=
  st

/-- `_invalidate_connection`: skip if an invalidation for the mode is in
flight or the mode holds no session; otherwise set the in-flight flag,
immediately detach the session reference, attempt the bounded logout, and
clear the flag. -/
def invalidateConnection (env : SjEnv) (st : WorkerState) (mode : Bool) :
    WorkerState :=
  if st.invalidating.get mode then st
  else if (st.apiClients.get mode).isNone then st
  else
    let st1 := { st with invalidating := st.invalidating.set mode true }
    let st2 := { st1 with apiClients := st1.apiClients.set mode none }
    let st3 := logoutEffect env.logoutOutcome st2
    { st3 with invalidating := st3.invalidating.set mode false }

end Shioaji

namespace Shioaji

/-! ### Request handlers -/

/-- Python `str(value)` for the scalar JSON values that reach f-string
formatting in error messages (container reprs are not modelled; no handler
formats a container). -/
def Json.pyStr : Json → String
  | .str s => s
  | .bool true => "True"
  | .bool false => "False"
  | .null => "None"
  | .num n => toString n
  | .arr _ => "[...]"
  | .obj _ => "\x7b...\x7d"

/-- `params[key]`: raises `KeyError` when absent. -/
def getParam (req : TradingRequest) (key : String) : Except PyErr Json :=
  match req.params.lookup key with
  | some v => .ok v
  | none => .error (.keyError key)

/-- Using a JSON value as an integer operand (Python arithmetic): numbers
and bools work, anything else raises `TypeError`. -/
def Json.toIntPy : Json → Except PyErr Int
  | .num n => .ok n
  | .bool b => .ok (if b then 1 else 0)
  | _ => .error (.typeError "unsupported operand type(s)")

/-- `get_contract_from_symbol` (`trading.py` lines 87-94): scan MXF then TXF
for a contract whose `symbol` equals the given value; raise `ValueError`
otherwise. -/
def getContractFromSymbol (env : SjEnv) (symbol : Json) :
    Except PyErr Contract :=
  match env.mxf.find? (fun c => symbol.eqStr c.symbol) with
  | some c => .ok c
  | none =>
    match env.txf.find? (fun c => symbol.eqStr c.symbol) with
    | some c => .ok c
    | none =>
      .error (.valueError ("Contract " ++ symbol.pyStr ++ " not found"))

/-- `get_current_position` (`trading.py` lines 107-120): first position whose
code matches the contract; a Buy side yields the signed quantity, a Sell side
its negation; no match yields `None`. -/
def getCurrentPosition (positions : List Position) (contract : Contract) :
    Option Int :=
  match positions.find? (fun p => contract.code = p.code) with
  | some p =>
    match p.side with
    | .Buy => some p.quantity
    | .Sell => some (-p.quantity)
  | none => none

/-- The quantity adjustment of `_handle_entry_order` (lines 789-793):
position netting — an action opposing the current position absorbs the
position's magnitude into the order quantity. -/
def entryOrderQuantity (action : Action) (currentPosition quantity : Int) :
    Int :=
  if action = Action.Buy ∧ currentPosition < 0 then quantity - currentPosition
  else if action = Action.Sell ∧ currentPosition > 0 then
    quantity + currentPosition
  else quantity

/-- The `try` block of `_handle_entry_order` (lines 784-824), after the
params have been read outside it. -/
def entryOrderAttempt (env : SjEnv) (st : WorkerState) (req : TradingRequest)
    (symbol quantityJ actionJ : Json) :
    Except PyErr (TradingResponse × WorkerState) := do
  let action := if actionJ.eqStr "Buy" then Action.Buy else Action.Sell
  let contract ← getContractFromSymbol env symbol
  let positions ← env.positionsResult
  let currentPosition := (getCurrentPosition positions contract).getD 0
  let originalQuantity ← quantityJ.toIntPy
  let quantity := entryOrderQuantity action currentPosition originalQuantity
  let result ← env.placeOrder contract (mkOrder action quantity)
  let tradeKey := result.orderId ++ ":" ++ result.seqno
  pure ({ request_id := req.request_id,
          success := true,
          data := .obj [("order_id", .str result.orderId),
                        ("seqno", .str result.seqno),
                        ("ordno", .str result.ordno),
                        ("action", actionJ),
                        ("quantity", .num quantity),
                        ("original_quantity", .num originalQuantity),
                        ("symbol", .str contract.symbol),
                        ("code", .str contract.code)],
          error := none },
        { st with pendingTrades := dictInsert tradeKey result st.pendingTrades })

/-- `_handle_entry_order` (lines 775-831): read the params, run the try
block, and turn a business-typed rejection into a failed response. -/
def handleEntryOrder (env : SjEnv) (st : WorkerState) (req : TradingRequest) :
    Except PyErr (TradingResponse × WorkerState) := do
  let symbol ← getParam req "symbol"
  let quantityJ ← getParam req "quantity"
  let actionJ ← getParam req "action"
  match entryOrderAttempt env st req symbol quantityJ actionJ with
  | .ok r => .ok r
  | .error e =>
    if e.isBusinessTyped then
      .ok ({ request_id := req.request_id, success := false,
             error := some e.msg }, st)
    else .error e

/-- The order-placing tail shared by both exit branches of
`_handle_exit_order` (lines 863-891). -/
def placeExit (env : SjEnv) (st : WorkerState) (req : TradingRequest)
    (contract : Contract) (action : Action) (quantity : Int) :
    Except PyErr (TradingResponse × WorkerState) := do
  let result ← env.placeOrder contract (mkOrder action quantity)
  let tradeKey := result.orderId ++ ":" ++ result.seqno
  pure ({ request_id := req.request_id,
          success := true,
          data := .obj [("order_id", .str result.orderId),
                        ("seqno", .str result.seqno),
                        ("ordno", .str result.ordno),
                        ("action", .str action.val),
                        ("quantity", .num quantity),
                        ("symbol", .str contract.symbol),
                        ("code", .str contract.code)],
          error := none },
        { st with pendingTrades := dictInsert tradeKey result st.pendingTrades })

/-- The `try` block of `_handle_exit_order` (lines 845-891): exit direction
and quantity come from the current position; with no matching position it
answers success with a no-position message and places nothing. -/
def exitOrderAttempt (env : SjEnv) (st : WorkerState) (req : TradingRequest)
    (symbol positionDirection : Json) :
    Except PyErr (TradingResponse × WorkerState) := do
  let direction := if positionDirection.eqStr "Buy" then Action.Buy
    else Action.Sell
  let contract ← getContractFromSymbol env symbol
  let positions ← env.positionsResult
  let currentPosition := (getCurrentPosition positions contract).getD 0
  if direction = Action.Buy ∧ currentPosition > 0 then
    placeExit env st req contract Action.Sell currentPosition
  else if direction = Action.Sell ∧ currentPosition < 0 then
    placeExit env st req contract Action.Buy (-currentPosition)
  else
    pure ({ request_id := req.request_id,
            success := true,
            data := .obj [("message", .str "No position to exit"),
                          ("order_id", .null)],
            error := none }, st)

/-- `_handle_exit_order` (lines 833-898): read the params, run the try block
(the `exitOrderAttempt` above), and turn a business-typed rejection into a
failed response. -/
def handleExitOrder (env : SjEnv) (st : WorkerState) (req : TradingRequest) :
    Except PyErr (TradingResponse × WorkerState) := do
  let symbol ← getParam req "symbol"
  let positionDirection ← getParam req "position_direction"
  match exitOrderAttempt env st req symbol positionDirection with
  | .ok r => .ok r
  | .error e =>
    if e.isBusinessTyped then
      .ok ({ request_id := req.request_id, success := false,
             error := some e.msg }, st)
    else .error e

/-- `_handle_check_order_status` (lines 900-963).  The float average fill
price is represented with exact integer division (fractional prices are
outside the model's numeric domain). -/
def handleCheckOrderStatus (env : SjEnv) (st : WorkerState)
    (req : TradingRequest) : Except PyErr (TradingResponse × WorkerState) := do
  let orderIdJ ← getParam req "order_id"
  let seqnoJ ← getParam req "seqno"
  let tradeKey := orderIdJ.pyStr ++ ":" ++ seqnoJ.pyStr
  match st.pendingTrades.lookup tradeKey with
  | none =>
    pure ({ request_id := req.request_id, success := false,
            error := some ("Trade not found: " ++ tradeKey) }, st)
  | some trade =>
    match env.updateStatus trade with
    | .error e =>
      -- the handler's own `except Exception` turns any SDK error into a
      -- failed response without re-raising
      pure ({ request_id := req.request_id, success := false,
              error := some e.msg }, st)
    | .ok stat =>
      let deals := stat.deals
      let totalValue := (deals.map (fun d => d.price * d.quantity)).sum
      let totalQty := (deals.map (fun d => d.quantity)).sum
      let fillAvgPrice := if totalQty > 0 then totalValue / totalQty else 0
      pure ({ request_id := req.request_id,
              success := true,
              data := .obj [("status", .str stat.status),
                            ("order_id", orderIdJ),
                            ("seqno", seqnoJ),
                            ("ordno", .str trade.ordno),
                            ("order_quantity", .num stat.orderQuantity),
                            ("deal_quantity", .num stat.dealQuantity),
                            ("cancel_quantity", .num stat.cancelQuantity),
                            ("fill_avg_price", .num fillAvgPrice),
                            ("deals", .arr (deals.map (fun d =>
                              .obj [("seq", .str d.seq),
                                    ("price", .num d.price),
                                    ("quantity", .num d.quantity),
                                    ("ts", .num d.ts)])))],
              error := none }, st)

end Shioaji

namespace Shioaji

/-! ### Read-only operations and request dispatch -/

/-- `get_valid_symbols` (`trading.py` lines 63-72). -/
def getValidSymbols (env : SjEnv) : List String :=
  (env.mxf.filter (fun c => "MXF".isPrefixOf c.symbol)).map (fun c => c.symbol)
    ++ (env.txf.filter (fun c => "TXF".isPrefixOf c.symbol)).map (fun c => c.symbol)

/-- `get_valid_contract_codes` (`trading.py` lines 75-84). -/
def getValidContractCodes (env : SjEnv) : List String :=
  (env.mxf.filter (fun c => "MXF".isPrefixOf c.code)).map (fun c => c.code)
    ++ (env.txf.filter (fun c => "TXF".isPrefixOf c.code)).map (fun c => c.code)

/-- Contract info payload used by the symbols listing. -/
def contractInfo (c : Contract) : Json :=
  .obj [("symbol", .str c.symbol), ("code", .str c.code),
        ("name", .str c.name), ("category", .str c.category),
        ("delivery_month", .str c.deliveryMonth)]

/-- Modelled from the spec: `get_valid_symbols_with_info` is imported by the
worker from `trading.py` but its definition is not in the source snapshot.
Per the spec's data-flow (a symbols listing with per-contract detail,
mirrored by the worker's mock handler fields), it reports the valid symbols
(as in `get_valid_symbols`) with their contract info. -/
def getValidSymbolsWithInfo (env : SjEnv) : List Json :=
  (env.mxf.filter (fun c => "MXF".isPrefixOf c.symbol)).map contractInfo
    ++ (env.txf.filter (fun c => "TXF".isPrefixOf c.symbol)).map contractInfo

/-- The `code_to_symbol` mapping of the `get_positions` handler: code of a
position resolved to a symbol through the futures catalogue, falling back to
the code itself.  The catalogue products are iterated in `dir()` order
(MXF before TXF alphabetically). -/
def codeToSymbol (env : SjEnv) (code : String) : String :=
  match (env.mxf ++ env.txf).find? (fun c => c.code = code) with
  | some c => c.symbol
  | none => code

/-- One element of the `positions_data` payload (lines 645-656). -/
def positionData (env : SjEnv) (p : Position) : Json :=
  .obj [("id", .str p.id),
        ("symbol", .str (codeToSymbol env p.code)),
        ("code", .str p.code),
        ("direction", .str p.direction.val),
        ("quantity", .num p.quantity),
        ("price", .num p.price),
        ("last_price", .num p.lastPrice),
        ("pnl", .num p.pnl),
        ("yd_quantity", .num p.ydQuantity),
        ("cond", .str p.cond)]

/-- `getattr(api.Contracts.Futures, product, None)`: the environment's
catalogue carries the two futures products of the supported universe. -/
def futuresProduct (env : SjEnv) (product : String) : Option (List Contract) :=
  if product = "MXF" then some env.mxf
  else if product = "TXF" then some env.txf
  else none

/-- Contract payload of the `get_product_contracts` handler. -/
def productContractData (c : Contract) : Json :=
  .obj [("symbol", .str c.symbol), ("code", .str c.code),
        ("name", .str c.name), ("delivery_month", .str c.deliveryMonth),
        ("category", .str c.category)]

/-- Python `.upper()` on a params value (`AttributeError` when the value is
not a string). -/
def Json.upperPy : Json → Except PyErr String
  | .str s => .ok s.toUpper
  | _ => .error (.attributeError "object has no attribute upper")

/-- The operation dispatch of `_handle_request` (lines 584-728), entered
after the API client for the request's mode has been obtained.  Every branch
answers with the request's own `request_id`; an operation outside the
enumerated set falls to the final `else`, a failed response naming the
unknown operation. -/
def dispatchOp (env : SjEnv) (st : WorkerState) (req : TradingRequest) :
    Except PyErr (TradingResponse × WorkerState) :=
  if req.operation = "ping" then
    .ok ({ request_id := req.request_id, success := true,
           data := .obj [("status", .str "healthy"),
                         ("simulation", .bool req.simulation)],
           error := none }, st)
  else if req.operation = "get_symbols" then
    let infos := getValidSymbolsWithInfo env
    .ok ({ request_id := req.request_id, success := true,
           data := .obj [("symbols", .arr infos),
                         ("count", .num infos.length)],
           error := none }, st)
  else if req.operation = "get_symbol_info" then do
    let symbol ← getParam req "symbol"
    let contract ← getContractFromSymbol env symbol
    .ok ({ request_id := req.request_id, success := true,
           data := .obj [("symbol", .str contract.symbol),
                         ("code", .str contract.code),
                         ("name", .str contract.name),
                         ("category", .str contract.category),
                         ("delivery_month", .str contract.deliveryMonth),
                         ("underlying_kind", .str contract.underlyingKind),
                         ("limit_up", .num contract.limitUp),
                         ("limit_down", .num contract.limitDown),
                         ("reference", .num contract.reference)],
           error := none }, st)
  else if req.operation = "get_contract_codes" then
    let codes := getValidContractCodes env
    .ok ({ request_id := req.request_id, success := true,
           data := .obj [("contracts", .arr (codes.map .str)),
                         ("count", .num codes.length)],
           error := none }, st)
  else if req.operation = "get_positions" then do
    let positions ← env.positionsResult
    let positionsData := positions.map (positionData env)
    .ok ({ request_id := req.request_id, success := true,
           data := .obj [("positions", .arr positionsData),
                         ("count", .num positionsData.length)],
           error := none }, st)
  else if req.operation = "get_futures_overview" then
    let mkProduct := fun (product : String) (cs : List Contract) =>
      Json.obj [("product", .str product),
                ("contracts", .arr (cs.map (fun c =>
                  .obj [("symbol", .str c.symbol), ("name", .str c.name),
                        ("code", .str c.code)]))),
                ("count", .num cs.length)]
    let products :=
      (if env.mxf.isEmpty then [] else [mkProduct "MXF" env.mxf])
        ++ (if env.txf.isEmpty then [] else [mkProduct "TXF" env.txf])
    .ok ({ request_id := req.request_id, success := true,
           data := .obj [("products", .arr products)],
           error := none }, st)
  else if req.operation = "get_product_contracts" then do
    let productJ ← getParam req "product"
    let product ← productJ.upperPy
    match futuresProduct env product with
    | none =>
      .ok ({ request_id := req.request_id, success := false,
             error := some ("Product \x27" ++ product ++ "\x27 not found") },
           st)
    | some cs =>
      .ok ({ request_id := req.request_id, success := true,
             data := .obj [("product", .str product),
                           ("contracts", .arr (cs.map productContractData)),
                           ("count", .num cs.length)],
             error := none }, st)
  else if req.operation = "place_entry_order" then
    handleEntryOrder env st req
  else if req.operation = "place_exit_order" then
    handleExitOrder env st req
  else if req.operation = "check_order_status" then
    handleCheckOrderStatus env st req
  else
    .ok ({ request_id := req.request_id, success := false,
           error := some ("Unknown operation: " ++ req.operation) }, st)

/-- The two `except` clauses of `_handle_request` (lines 730-773), applied to
the worker state as it stands when the exception is raised: a typed
connection error or an exception matching the connection patterns invalidates
the mode's connection; everything else only becomes a failed response. -/
def handleRequestErr (env : SjEnv) (st : WorkerState) (req : TradingRequest)
    (e : PyErr) : TradingResponse × WorkerState :=
  if e.isTypedConnectionError then
    let tn := e.typeName
    let m := e.msg
    ({ request_id := req.request_id, success := false,
       error := some ("Connection error (" ++ tn ++ "): " ++ m) },
     invalidateConnection env st req.simulation)
  else if isConnectionErrorStr e.msg then
    ({ request_id := req.request_id, success := false,
       error := some ("Connection error: " ++ e.msg) },
     invalidateConnection env st req.simulation)
  else
    ({ request_id := req.request_id, success := false,
       error := some e.msg }, st)

/-- `_handle_request` (lines 569-773): obtain the session for the request's
mode, dispatch the operation, and classify any raised exception.  The state
passed to the error classifier is the state at the raise point (client
acquisition mutations persist). -/
def handleRequest (env : SjEnv) (st : WorkerState) (req : TradingRequest) :
    TradingResponse × WorkerState :=
  match getApiClient env st req.simulation with
  | .error e => handleRequestErr env st req e
  | .ok (_, st1) =>
    match dispatchOp env st1 req with
    | .ok (resp, st2) => (resp, st2)
    | .error e => handleRequestErr env st1 req e

end Shioaji

namespace Shioaji

/-! ### Queue substrate and the worker's main loop (`run`, lines 965-1041) -/

/-- The list/TTL slice of the Redis store the protocol uses. -/
structure RedisState where
  lists : List (String × List Json)
  ttl : List (String × Nat)
deriving Repr

/-- Contents of a Redis list (absent key reads as the empty list). -/
def listAt (r : RedisState) (key : String) : List Json :=
  (r.lists.lookup key).getD []

/-- Remaining TTL set on a key, if any. -/
def ttlAt (r : RedisState) (key : String) : Option Nat :=
  r.ttl.lookup key

/-- `redis.rpush(key, v)`: append at the right end. -/
def rpush (r : RedisState) (key : String) (v : Json) : RedisState :=
  { r with lists := dictInsert key (listAt r key ++ [v]) r.lists }

/-- `redis.expire(key, secs)`. -/
def expire (r : RedisState) (key : String) (secs : Nat) : RedisState :=
  { r with ttl := dictInsert key secs r.ttl }

/-- `redis.blpop(key)`: pop from the left end, `None` when empty. -/
def blpop (r : RedisState) (key : String) : Option (Json × RedisState) :=
  match listAt r key with
  | [] => none
  | v :: rest => some (v, { r with lists := dictInsert key rest r.lists })

/-- `get_queue_prefix` (`trading_queue.py` lines 27-30). -/
def queueNamespace (tenantId : String) : String :=
  if tenantId = "" then "" else "tenant:" ++ tenantId ++ ":"

/-- The tenant's request queue name (`<namespace>trading:requests`). -/
def requestQueueName (tenantId : String) : String :=
  queueNamespace tenantId ++ "trading:requests"

/-- The response key derived from a correlation id
(`<namespace>trading:response:<request_id>`). -/
def responseKey (tenantId : String) (requestId : String) : String :=
  queueNamespace tenantId ++ "trading:response:" ++ requestId

/-- One iteration of the worker main loop (lines 987-1023): pop a queued
item; a parsed request is handled, its single response pushed on the key
derived from the request's id and the key given a 60-second expiry.  An empty
poll is the idle branch (periodic connection-health probing, which performs
no queue writes; its connection-health side effects are not modelled as no
claim depends on idle-time invalidation).  An unparsable item is the main
loop's generic exception path: log and continue, no response. -/
def runStep (env : SjEnv) (tenantId : String) (st : WorkerState)
    (redis : RedisState) : WorkerState × RedisState :=
  match blpop redis (requestQueueName tenantId) with
  | none => (st, redis)
  | some (item, redis1) =>
    match TradingRequest.from_json item with
    | none => (st, redis1)
    | some req =>
      let (resp, st1) := handleRequest env st req
      let st2 :=
        if resp.success then
          { st1 with lastSuccessfulRequest :=
              st1.lastSuccessfulRequest.set req.simulation env.now }
        else st1
      let key := responseKey tenantId req.request_id
      (st2, expire (rpush redis1 key resp.to_json) key 60)

/-- Iterate the main loop a fixed number of times. -/
def runSteps (env : SjEnv) (tenantId : String) :
    Nat → WorkerState × RedisState → WorkerState × RedisState
  | 0, s => s
  | n + 1, (st, redis) => runSteps env tenantId n (runStep env tenantId st redis)

end Shioaji

namespace Shioaji

/-! ## Worker orchestrator (`orchestrator/worker_manager.py`)

The Docker backend, the credential store and the tenant table are external
collaborators captured by `OrchEnv`.  SQLAlchemy sessions are modelled with
an explicit committed/session split: typed errors re-raise without commit
(uncommitted mutations are lost when the session closes), the generic
handler rolls back, and `db.commit()` publishes the session state. -/

/-- Tenant row fields the orchestrator reads. -/
structure Tenant where
  id : Nat
  slug : String
deriving DecidableEq, Repr

/-- Outcome of `docker.containers.create(...)`. -/
inductive DockerCreateOutcome where
  | created (containerId : String)
  | apiError (m : String)
deriving DecidableEq, Repr

/-- Outcome of `docker.containers.get(id)` followed by `container.start()`. -/
inductive DockerOpOutcome where
  | ok
  | notFound
  | apiError (m : String)
deriving DecidableEq, Repr

/-- Typed orchestrator errors (`WorkerManagerError` hierarchy). -/
inductive WmErr where
  | tenantNotFound (m : String)
  | alreadyRunning (m : String)
  | credentialsNotFound (m : String)
  | workerNotFound (m : String)
  | managerError (m : String)
deriving DecidableEq, Repr

/-- External collaborators of the orchestrator: the tenant table, the
credential store (`TenantCredential` rows and `export_for_worker`), and the
Docker API outcomes. -/
structure OrchEnv where
  tenants : List Tenant
  hasShioajiCred : Nat → Bool
  exportedCredFiles : Nat → List String
  dockerCreate : DockerCreateOutcome
  dockerStart : Option String → DockerOpOutcome
  now : Nat := 0

/-- Replace the first list element matched by the predicate. -/
def replaceFirst (p : α → Bool) (new : α) : List α → List α
  | [] => []
  | x :: xs => if p x then new :: xs else x :: replaceFirst p new xs

/-- Write a mutated instance row back over its tenant's row. -/
def replaceInstance (db : DbState) (inst : WorkerInstance) : DbState :=
  { db with instances :=
      replaceFirst (fun i => i.tenantId = inst.tenantId) inst db.instances }

/-- `WorkerManager._log_audit`: append an audit row to the session. -/
def logAudit (db : DbState) (action : String) (tenantId : Nat) : DbState :=
  { db with auditLog := db.auditLog ++ [(action, tenantId)] }

/-- The tail of `create_worker` (lines 197-279), entered with the slot
allocated and the instance row created (committed) or updated (in session):
export credentials, create the container, record audit, commit. -/
def createWorkerFinish (env : OrchEnv) (tenantId : Nat) (tenant : Tenant)
    (committed session : DbState) (inst : WorkerInstance) (redisDb : Nat) :
    Except (WmErr × DbState) (WorkerInstance × DbState) :=
  if (env.exportedCredFiles tenantId).isEmpty then
    .error (.credentialsNotFound
      ("Failed to export credentials for tenant " ++ tenant.slug), committed)
  else
    match env.dockerCreate with
    | .apiError m =>
      .error (.managerError
        ("Failed to create worker: Failed to create container: " ++ m),
        committed)
    | .created cid =>
      let inst2 := { inst with
        containerId := some cid,
        containerName := some ("worker-" ++ tenant.slug),
        status := WorkerStatus.pending,
        redisDb := redisDb }
      let session2 := logAudit (replaceInstance session inst2)
        "worker_started" tenantId
      .ok (inst2, session2)

/-- The part of `create_worker` after the already-running check (lines
176-279): credential check, slot allocation, instance row create-or-reuse,
then `createWorkerFinish`. -/
def createWorkerBody (env : OrchEnv) (db : DbState) (tenantId : Nat)
    (tenant : Tenant) (existing : Option WorkerInstance) :
    Except (WmErr × DbState) (WorkerInstance × DbState) :=
  if env.hasShioajiCred tenantId then
    match allocateRedisDb db with
    | .error m => .error (.managerError ("Failed to create worker: " ++ m), db)
    | .ok redisDb =>
      match existing with
      | some inst =>
        let inst1 := { inst with
          redisDb := redisDb, status := WorkerStatus.pending,
          errorMessage := none }
        createWorkerFinish env tenantId tenant db
          (replaceInstance db inst1) inst1 redisDb
      | none =>
        let inst1 : WorkerInstance :=
          { tenantId := tenantId, redisDb := redisDb,
            status := WorkerStatus.pending }
        let db1 := { db with instances := db.instances ++ [inst1] }
        createWorkerFinish env tenantId tenant db1 db1 inst1 redisDb
  else
    .error (.credentialsNotFound
      ("Shioaji credentials not found for tenant " ++ tenant.slug), db)

/-- `WorkerManager.create_worker` (lines 141-289): tenant lookup,
already-running check on any non-terminal existing instance, then
`createWorkerBody`. -/
def createWorker (env : OrchEnv) (db : DbState) (tenantId : Nat) :
    Except (WmErr × DbState) (WorkerInstance × DbState) :=
  match env.tenants.find? (fun t => t.id = tenantId) with
  | none => .error (.tenantNotFound ("Tenant " ++ toString tenantId ++ " not found"), db)
  | some tenant =>
    match getWorkerInstance db tenantId with
    | some inst =>
      if inst.status ≠ WorkerStatus.stopped ∧ inst.status ≠ WorkerStatus.error
      then
        .error (.alreadyRunning
          ("Worker for tenant " ++ tenant.slug ++ " already exists"), db)
      else createWorkerBody env db tenantId tenant (some inst)
    | none => createWorkerBody env db tenantId tenant none

/-- `WorkerManager.start_worker` (lines 291-343): no-op when already
Running; otherwise start the container, and on success set status Running,
record the start timestamp, clear the stop timestamp and error message,
audit, commit. -/
def startWorker (env : OrchEnv) (db : DbState) (tenantId : Nat) :
    Except (WmErr × DbState) (WorkerInstance × DbState) :=
  match env.tenants.find? (fun t => t.id = tenantId) with
  | none => .error (.tenantNotFound ("Tenant " ++ toString tenantId ++ " not found"), db)
  | some tenant =>
    match getWorkerInstance db tenantId with
    | none =>
      .error (.workerNotFound ("No worker instance for tenant " ++ tenant.slug), db)
    | some inst =>
      if inst.status = WorkerStatus.running then .ok (inst, db)
      else
        match env.dockerStart inst.containerId with
        | .ok =>
          let inst1 := { inst with
            status := WorkerStatus.running,
            startedAt := some env.now,
            stoppedAt := none,
            errorMessage := none }
          .ok (inst1, logAudit (replaceInstance db inst1) "worker_started" tenantId)
        | .notFound =>
          .error (.workerNotFound "Container not found, call create_worker first", db)
        | .apiError m =>
          .error (.managerError ("Failed to start container: " ++ m), db)

end Shioaji

namespace Shioaji

/-! ## Theorems -/

/-- C9: round-tripping a `TradingRequest` or a `TradingResponse` through its
JSON serialization reproduces the value, absent `data`/`error` (serialized
as null) included. -/
theorem serialization_roundtrip :
    (∀ r : TradingRequest, TradingRequest.from_json r.to_json = some r)
      ∧ (∀ resp : TradingResponse,
        TradingResponse.from_json resp.to_json = some resp) := by
  constructor
  · intro r
    rfl
  · intro resp
    cases resp with
    | mk rid ok d err =>
      cases err <;> rfl

end Shioaji

namespace Shioaji

/-- A table holding one instance in status `stopping` — a non-terminal
status — on slot 0. -/
def stoppingDb : DbState :=
  { instances := [{ tenantId := 0, redisDb := 0, status := WorkerStatus.stopping }] }

/-- C3 counterexample: the claim says allocation returns the lowest slot not
used by any non-terminal instance, but with slot 0 held by an instance in the
non-terminal status `stopping` the allocator still returns 0 — `stopping` is
missing from `allocate_redis_db`'s status filter. -/
theorem allocate_nonterminal_counterexample :
    allocateRedisDb stoppingDb = .ok 0
      ∧ stoppingDb.instances.any
          (fun i => i.status.nonTerminal && (i.redisDb == 0)) = true :=
  ⟨rfl, rfl⟩

/-- One step of the allocation scenario: allocate a slot and record it
against a fresh tenant's instance in status `pending` (an
allocation-active, non-terminal status), as `create_worker` does. -/
def allocStep (db : DbState) (k : Nat) : DbState :=
  match allocateRedisDb db with
  | .ok n =>
    { db with instances := db.instances
        ++ [{ tenantId := k, redisDb := n, status := WorkerStatus.pending }] }
  | .error _ => db

/-- The table after `k` successive allocations starting from empty. -/
def allocScenario (k : Nat) : DbState :=
  (List.range k).foldl allocStep { instances := [] }

set_option maxRecDepth 4000 in
/-- C3 (amended): allocation returns the lowest slot in `[0,15]` not used by
any instance in an allocation-active status (`pending`/`starting`/`running`/
`hibernating`; instances in `stopping`, `stopped` or `error` do not hold
their slot).  Concretely: 16 successive allocations recorded against
active-status instances return the 16 distinct slots `0..15`, a 17th raises
the exhaustion error, and after releasing the 2nd allocation's instance
(slot 1) the next allocation returns 1. -/
theorem allocate_lowest_active_free :
    (∀ (db : DbState) (n : Nat), allocateRedisDb db = .ok n →
        n < 16 ∧ ¬ n ∈ usedDbs db ∧ ∀ m, m < n → m ∈ usedDbs db)
      ∧ (allocScenario 16).instances.map (fun i => i.redisDb) = List.range 16
      ∧ allocateRedisDb (allocScenario 16)
          = .error "No available Redis database slots (max 15 tenants)"
      ∧ allocateRedisDb (releaseRedisDb (allocScenario 16) 1) = .ok 1 := by
  refine ⟨?_, by decide, rfl, rfl⟩
  intro db n h
  unfold allocateRedisDb at h
  split at h
  · next k hk =>
    cases h
    rw [List.find?_range_eq_some] at hk
    obtain ⟨hp, hmem, hmin⟩ := hk
    refine ⟨List.mem_range.mp hmem, by simpa using hp, ?_⟩
    intro m hm
    have := hmin m hm
    simpa using this
  · exact absurd h (by simp)

/-- A table with the active slots 0 and 1 taken. -/
def witnessDb : DbState :=
  { instances := [{ tenantId := 0, redisDb := 0, status := WorkerStatus.running },
                  { tenantId := 1, redisDb := 1, status := WorkerStatus.pending }] }

/-- C3 witness: on a table occupying slots 0 and 1 the allocator's answer 2
satisfies the amended specification. -/
theorem allocate_lowest_active_free_witness :
    2 < 16 ∧ ¬ 2 ∈ usedDbs witnessDb ∧ ∀ m, m < 2 → m ∈ usedDbs witnessDb :=
  allocate_lowest_active_free.1 witnessDb 2 rfl

end Shioaji

namespace Shioaji

/-- C5: with the tenant present, `create_worker` fails with the typed
already-running error whenever a non-terminal instance (status other than
`stopped`/`error`) exists, and with the typed credentials-not-found error
whenever the tenant has no Shioaji credential record and no non-terminal
instance blocks it first; in both cases the persisted state is returned
unchanged — in particular no slot is allocated and no instance row is
created or modified in the credentials-missing case. -/
theorem create_worker_guards (env : OrchEnv) (db : DbState)
    (tenantId : Nat) (tenant : Tenant)
    (htenant : env.tenants.find? (fun t => t.id = tenantId) = some tenant) :
    (∀ inst, getWorkerInstance db tenantId = some inst →
        inst.status.nonTerminal = true →
        createWorker env db tenantId =
          .error (.alreadyRunning
            ("Worker for tenant " ++ tenant.slug ++ " already exists"), db))
      ∧ (env.hasShioajiCred tenantId = false →
        (∀ inst ∈ getWorkerInstance db tenantId,
            inst.status.nonTerminal = false) →
        createWorker env db tenantId =
          .error (.credentialsNotFound
            ("Shioaji credentials not found for tenant " ++ tenant.slug), db)) := by
  constructor
  · intro inst hinst hnt
    unfold createWorker
    rw [htenant, hinst]
    have hne : inst.status ≠ WorkerStatus.stopped
        ∧ inst.status ≠ WorkerStatus.error := by
      cases hs : inst.status <;> simp_all [WorkerStatus.nonTerminal]
    simp [hne]
  · intro hcred hterm
    unfold createWorker createWorkerBody
    rw [htenant]
    cases hinst : getWorkerInstance db tenantId with
    | none => simp [hcred]
    | some inst =>
      have hnt := hterm inst (by simp [hinst])
      have hne : ¬ (inst.status ≠ WorkerStatus.stopped
          ∧ inst.status ≠ WorkerStatus.error) := by
        cases hs : inst.status <;> simp_all [WorkerStatus.nonTerminal]
      simp [hne, hcred]

/-- Orchestrator environment for concrete witnesses: one tenant `acme` (id
5), credentials present, Docker calls succeeding. -/
def orchEnvA : OrchEnv :=
  { tenants := [{ id := 5, slug := "acme" }],
    hasShioajiCred := fun _ => true,
    exportedCredFiles := fun _ => ["api_key", "secret_key"],
    dockerCreate := .created "c1",
    dockerStart := fun _ => .ok,
    now := 42 }

/-- Same environment with no stored credentials. -/
def orchEnvB : OrchEnv := { orchEnvA with hasShioajiCred := fun _ => false }

/-- Table with a running instance for tenant 5. -/
def dbRunning : DbState :=
  { instances := [{ tenantId := 5, redisDb := 3,
                    status := WorkerStatus.running,
                    containerId := some "c1" }] }

/-- C5 witness: concrete already-running and credentials-missing failures,
each leaving the table unchanged. -/
theorem create_worker_guards_witness :
    createWorker orchEnvA dbRunning 5 =
        .error (.alreadyRunning "Worker for tenant acme already exists",
          dbRunning)
      ∧ createWorker orchEnvB { instances := [] } 5 =
        .error (.credentialsNotFound
          "Shioaji credentials not found for tenant acme", { instances := [] }) :=
  ⟨(create_worker_guards orchEnvA dbRunning 5 { id := 5, slug := "acme" } rfl).1
      _ rfl rfl,
   (create_worker_guards orchEnvB { instances := [] } 5
      { id := 5, slug := "acme" } rfl).2 rfl
      (by simp [getWorkerInstance])⟩

/-- C8: with the tenant and its instance present, `start_worker` on a
Running instance is a no-op returning the same row and table without error;
on a Stopped, Error or Pending instance whose container starts, it sets the
status to Running, records the start timestamp, and clears the stop
timestamp and any prior error message (committing the updated row and an
audit entry). -/
theorem start_worker_spec (env : OrchEnv) (db : DbState) (tenantId : Nat)
    (tenant : Tenant) (inst : WorkerInstance)
    (htenant : env.tenants.find? (fun t => t.id = tenantId) = some tenant)
    (hinst : getWorkerInstance db tenantId = some inst) :
    (inst.status = WorkerStatus.running →
        startWorker env db tenantId = .ok (inst, db))
      ∧ (inst.status = WorkerStatus.stopped ∨ inst.status = WorkerStatus.error
          ∨ inst.status = WorkerStatus.pending →
        env.dockerStart inst.containerId = .ok →
        startWorker env db tenantId =
          .ok ({ inst with status := WorkerStatus.running,
                           startedAt := some env.now,
                           stoppedAt := none,
                           errorMessage := none },
            logAudit (replaceInstance db
              { inst with status := WorkerStatus.running,
                          startedAt := some env.now,
                          stoppedAt := none,
                          errorMessage := none }) "worker_started" tenantId)) := by
  constructor
  · intro hrun
    unfold startWorker
    rw [htenant, hinst]
    simp [hrun]
  · intro hstat hdock
    have hne : inst.status ≠ WorkerStatus.running := by
      rcases hstat with h | h | h <;> simp [h]
    unfold startWorker
    rw [htenant, hinst]
    simp [hne, hdock]

/-- Table with a stopped instance carrying a stale error message. -/
def dbStopped : DbState :=
  { instances := [{ tenantId := 5, redisDb := 3,
                    status := WorkerStatus.stopped,
                    containerId := some "c1",
                    stoppedAt := some 7,
                    errorMessage := some "boom" }] }

/-- C8 witness: starting the running instance is a no-op; starting the
stopped instance yields the running row with a fresh start timestamp and a
cleared error. -/
theorem start_worker_spec_witness :
    startWorker orchEnvA dbRunning 5 =
        .ok ({ tenantId := 5, redisDb := 3, status := WorkerStatus.running,
               containerId := some "c1" }, dbRunning)
      ∧ startWorker orchEnvA dbStopped 5 =
        .ok ({ tenantId := 5, redisDb := 3, status := WorkerStatus.running,
               containerId := some "c1", startedAt := some 42 },
          { instances := [{ tenantId := 5, redisDb := 3,
                            status := WorkerStatus.running,
                            containerId := some "c1",
                            startedAt := some 42 }],
            auditLog := [("worker_started", 5)] }) :=
  ⟨(start_worker_spec orchEnvA dbRunning 5 { id := 5, slug := "acme" }
      _ rfl rfl).1 rfl,
   (start_worker_spec orchEnvA dbStopped 5 { id := 5, slug := "acme" }
      _ rfl rfl).2 (Or.inl rfl) rfl⟩

end Shioaji

namespace Shioaji

/-- Concrete worker environment for witnesses: login succeeds immediately,
the catalogue holds one MXF contract, the account is short 3 contracts of
it, and order placement succeeds. -/
def sjEnvW : SjEnv :=
  { loginOutcome := fun _ => .ok (),
    freshSession := 100,
    mxf := [{ symbol := "MXF", code := "MXF202501" }],
    txf := [],
    positionsResult := .ok [{ code := "MXF202501", side := Action.Sell,
                              direction := Action.Sell, quantity := 3 }],
    placeOrder := fun _ _ => .ok { orderId := "o1", seqno := "n1", ordno := "d1" },
    updateStatus := fun _ => .ok { status := "Filled" } }

/-- Worker state with a live simulation session and no live real session. -/
def stConnected : WorkerState :=
  { apiClients := { sim := some 1, real := none },
    pendingTrades := [],
    lastSuccessfulRequest := { sim := 0, real := 0 },
    invalidating := { sim := false, real := false } }

/-- C10: a request whose operation is outside the ten enumerated operations
is answered (no exception escapes the dispatcher) with a failed response
echoing the request's id and naming the unknown operation, and the worker
state is untouched. -/
theorem unknown_operation_response (env : SjEnv) (st : WorkerState)
    (req : TradingRequest) (s : Nat)
    (hconn : st.apiClients.get req.simulation = some s)
    (hop : ¬ req.operation ∈ tradingOperations) :
    handleRequest env st req =
      ({ request_id := req.request_id, success := false,
         error := some ("Unknown operation: " ++ req.operation) }, st) := by
  simp only [tradingOperations, List.mem_cons, List.not_mem_nil, or_false] at hop
  push_neg at hop
  obtain ⟨h1, h2, h3, h4, h5, h6, h7, h8, h9, h10⟩ := hop
  simp [handleRequest, getApiClient, hconn, dispatchOp,
    h1, h2, h3, h4, h5, h6, h7, h8, h9, h10]

/-- C10 witness: a concrete `frobnicate` request against the connected
worker. -/
theorem unknown_operation_response_witness :
    handleRequest sjEnvW stConnected ⟨"rid1", "frobnicate", true, []⟩ =
      ({ request_id := "rid1", success := false,
         error := some "Unknown operation: frobnicate" }, stConnected) :=
  unknown_operation_response sjEnvW stConnected ⟨"rid1", "frobnicate", true, []⟩
    1 rfl (by decide)

end Shioaji

namespace Shioaji

/-- C1: an entry order placed against a found contract computes its quantity
by position netting (`entryOrderQuantity`, the adjustment of lines 789-793):
an action opposing the current position places the requested quantity plus
the opposing position's magnitude, otherwise exactly the requested quantity;
the success payload carries the placed quantity, the original requested
quantity and the matched contract's canonical code. -/
theorem entry_order_netting (env : SjEnv) (st : WorkerState)
    (req : TradingRequest) (s : Nat) (sym actStr : String) (q p : Int)
    (c : Contract) (ps : List Position) (res : OrderResult) (a : Action)
    (hconn : st.apiClients.get req.simulation = some s)
    (hop : req.operation = "place_entry_order")
    (hsym : req.params.lookup "symbol" = some (.str sym))
    (hqty : req.params.lookup "quantity" = some (.num q))
    (hact : req.params.lookup "action" = some (.str actStr))
    (ha : a = if actStr = "Buy" then Action.Buy else Action.Sell)
    (hcontract : getContractFromSymbol env (.str sym) = .ok c)
    (hps : env.positionsResult = .ok ps)
    (hcur : (getCurrentPosition ps c).getD 0 = p)
    (hplace : env.placeOrder c (mkOrder a (entryOrderQuantity a p q)) = .ok res) :
    handleRequest env st req =
      ({ request_id := req.request_id, success := true,
         data := .obj [("order_id", .str res.orderId),
                       ("seqno", .str res.seqno),
                       ("ordno", .str res.ordno),
                       ("action", .str actStr),
                       ("quantity", .num (entryOrderQuantity a p q)),
                       ("original_quantity", .num q),
                       ("symbol", .str c.symbol),
                       ("code", .str c.code)],
         error := none },
       { st with pendingTrades :=
           dictInsert (res.orderId ++ ":" ++ res.seqno) res st.pendingTrades })
      ∧ ((a = Action.Buy ∧ p < 0) ∨ (a = Action.Sell ∧ p > 0) →
          entryOrderQuantity a p q = q + |p|)
      ∧ (¬ ((a = Action.Buy ∧ p < 0) ∨ (a = Action.Sell ∧ p > 0)) →
          entryOrderQuantity a p q = q) := by
  refine ⟨?_, ?_, ?_⟩
  · have key : (if Json.eqStr (.str actStr) "Buy" then Action.Buy
        else Action.Sell) = a := by
      rw [ha]
      by_cases hbuy : actStr = "Buy" <;> simp [Json.eqStr, hbuy]
    simp [handleRequest, getApiClient, hconn, dispatchOp, hop,
      handleEntryOrder, entryOrderAttempt, getParam, hsym, hqty, hact, key,
      hcontract, hps, hcur, Json.toIntPy, hplace, bind, Except.bind, pure,
      Except.pure]
  · rintro (⟨hb, hp⟩ | ⟨hs, hp⟩)
    · rw [entryOrderQuantity, if_pos ⟨hb, hp⟩, abs_of_neg hp]
      ring
    · have hnot : ¬ (a = Action.Buy ∧ p < 0) := by
        rintro ⟨hba, _⟩
        rw [hs] at hba
        exact absurd hba (by simp)
      rw [entryOrderQuantity, if_neg hnot, if_pos ⟨hs, hp⟩, abs_of_pos hp]
  · intro h
    obtain ⟨hA, hB⟩ := not_or.mp h
    rw [entryOrderQuantity, if_neg hA, if_neg hB]

/-- The end-to-end entry request of the specification's scenario: quantity 5,
action Buy, against the short-3 position of `sjEnvW`. -/
def entryReq : TradingRequest :=
  ⟨"rid2", "place_entry_order", true,
   [("symbol", .str "MXF"), ("quantity", .num 5), ("action", .str "Buy")]⟩

/-- C1 witness: the scenario of the spec — Buy 5 against a short position of
3 places quantity 8 and reports the contract code and the original quantity
in the response. -/
theorem entry_order_netting_witness :
    handleRequest sjEnvW stConnected entryReq =
      ({ request_id := "rid2", success := true,
         data := .obj [("order_id", .str "o1"),
                       ("seqno", .str "n1"),
                       ("ordno", .str "d1"),
                       ("action", .str "Buy"),
                       ("quantity", .num 8),
                       ("original_quantity", .num 5),
                       ("symbol", .str "MXF"),
                       ("code", .str "MXF202501")],
         error := none },
       { stConnected with pendingTrades :=
           [("o1:n1", { orderId := "o1", seqno := "n1", ordno := "d1" })] })
      ∧ ((Action.Buy = Action.Buy ∧ (-3 : Int) < 0)
            ∨ (Action.Buy = Action.Sell ∧ (-3 : Int) > 0) →
          entryOrderQuantity Action.Buy (-3) 5 = 5 + |(-3 : Int)|)
      ∧ (¬ ((Action.Buy = Action.Buy ∧ (-3 : Int) < 0)
            ∨ (Action.Buy = Action.Sell ∧ (-3 : Int) > 0)) →
          entryOrderQuantity Action.Buy (-3) 5 = 5) :=
  entry_order_netting sjEnvW stConnected entryReq 1 "MXF" "Buy" 5 (-3)
    { symbol := "MXF", code := "MXF202501" }
    [{ code := "MXF202501", side := Action.Sell, direction := Action.Sell,
       quantity := 3 }]
    { orderId := "o1", seqno := "n1", ordno := "d1" } Action.Buy
    rfl rfl rfl rfl rfl rfl rfl rfl rfl rfl

end Shioaji

namespace Shioaji

/-- C4: an exit order derives its direction and quantity from the existing
position — a placed exit order carries the action opposite to the position
and a quantity equal to the position's magnitude — and with no position for
the symbol nothing is placed and the response is success with data
`{"order_id": null, "message": "No position to exit"}` and an unchanged
worker state. -/
theorem exit_order_spec (env : SjEnv) (st : WorkerState)
    (req : TradingRequest) (s : Nat) (sym pdStr : String) (p : Int)
    (c : Contract) (ps : List Position)
    (hconn : st.apiClients.get req.simulation = some s)
    (hop : req.operation = "place_exit_order")
    (hsym : req.params.lookup "symbol" = some (.str sym))
    (hpd : req.params.lookup "position_direction" = some (.str pdStr))
    (hcontract : getContractFromSymbol env (.str sym) = .ok c)
    (hps : env.positionsResult = .ok ps)
    (hcur : (getCurrentPosition ps c).getD 0 = p) :
    (p = 0 →
      handleRequest env st req =
        ({ request_id := req.request_id, success := true,
           data := .obj [("message", .str "No position to exit"),
                         ("order_id", .null)],
           error := none }, st))
      ∧ (pdStr = "Buy" → 0 < p →
        ∀ res, env.placeOrder c (mkOrder Action.Sell p) = .ok res →
        handleRequest env st req =
          ({ request_id := req.request_id, success := true,
             data := .obj [("order_id", .str res.orderId),
                           ("seqno", .str res.seqno),
                           ("ordno", .str res.ordno),
                           ("action", .str "Sell"),
                           ("quantity", .num |p|),
                           ("symbol", .str c.symbol),
                           ("code", .str c.code)],
             error := none },
           { st with pendingTrades :=
               dictInsert (res.orderId ++ ":" ++ res.seqno) res st.pendingTrades }))
      ∧ (pdStr ≠ "Buy" → p < 0 →
        ∀ res, env.placeOrder c (mkOrder Action.Buy (-p)) = .ok res →
        handleRequest env st req =
          ({ request_id := req.request_id, success := true,
             data := .obj [("order_id", .str res.orderId),
                           ("seqno", .str res.seqno),
                           ("ordno", .str res.ordno),
                           ("action", .str "Buy"),
                           ("quantity", .num |p|),
                           ("symbol", .str c.symbol),
                           ("code", .str c.code)],
             error := none },
           { st with pendingTrades :=
               dictInsert (res.orderId ++ ":" ++ res.seqno) res st.pendingTrades })) := by
  refine ⟨?_, ?_, ?_⟩
  · intro h0
    subst h0
    by_cases hbuy : pdStr = "Buy" <;>
      simp [handleRequest, getApiClient, hconn, dispatchOp, hop,
        handleExitOrder, exitOrderAttempt, getParam, hsym, hpd, hcontract,
        hps, hcur, Json.eqStr, hbuy, bind, Except.bind, pure, Except.pure]
  · intro hbuy hp res hres
    simp [handleRequest, getApiClient, hconn, dispatchOp, hop,
      handleExitOrder, exitOrderAttempt, placeExit, getParam, hsym, hpd,
      hcontract, hps, hcur, Json.eqStr, hbuy, hp, hp.le, abs_of_pos hp, hres,
      Action.val, bind, Except.bind, pure, Except.pure]
  · intro hbuy hp res hres
    simp [handleRequest, getApiClient, hconn, dispatchOp, hop,
      handleExitOrder, exitOrderAttempt, placeExit, getParam, hsym, hpd,
      hcontract, hps, hcur, Json.eqStr, hbuy, hp, abs_of_neg hp, hres,
      Action.val, not_lt_of_gt hp, bind, Except.bind, pure, Except.pure]

/-- Environment with no open positions. -/
def sjEnvNoPos : SjEnv := { sjEnvW with positionsResult := .ok [] }

/-- Exit request naming a long position to close. -/
def exitReqBuy : TradingRequest :=
  ⟨"rid3", "place_exit_order", true,
   [("symbol", .str "MXF"), ("position_direction", .str "Buy")]⟩

/-- Exit request naming a short position to close. -/
def exitReqSell : TradingRequest :=
  ⟨"rid4", "place_exit_order", true,
   [("symbol", .str "MXF"), ("position_direction", .str "Sell")]⟩

/-- C4 witness: with no position the exit request answers success with the
no-position payload and leaves the state alone; against the short-3 position
the exit places a Buy of 3 (the position's magnitude). -/
theorem exit_order_spec_witness :
    handleRequest sjEnvNoPos stConnected exitReqBuy =
        ({ request_id := "rid3", success := true,
           data := .obj [("message", .str "No position to exit"),
                         ("order_id", .null)],
           error := none }, stConnected)
      ∧ handleRequest sjEnvW stConnected exitReqSell =
        ({ request_id := "rid4", success := true,
           data := .obj [("order_id", .str "o1"),
                         ("seqno", .str "n1"),
                         ("ordno", .str "d1"),
                         ("action", .str "Buy"),
                         ("quantity", .num 3),
                         ("symbol", .str "MXF"),
                         ("code", .str "MXF202501")],
           error := none },
         { stConnected with pendingTrades :=
             [("o1:n1", { orderId := "o1", seqno := "n1", ordno := "d1" })] }) :=
  ⟨(exit_order_spec sjEnvNoPos stConnected exitReqBuy 1 "MXF" "Buy" 0
      { symbol := "MXF", code := "MXF202501" } []
      rfl rfl rfl rfl rfl rfl rfl).1 rfl,
   (exit_order_spec sjEnvW stConnected exitReqSell 1 "MXF" "Sell" (-3)
      { symbol := "MXF", code := "MXF202501" }
      [{ code := "MXF202501", side := Action.Sell, direction := Action.Sell,
         quantity := 3 }]
      rfl rfl rfl rfl rfl rfl rfl).2.2 (by decide) (by decide)
      { orderId := "o1", seqno := "n1", ordno := "d1" } rfl⟩

end Shioaji

namespace Shioaji

/-- C7: when handling an order request fails with one of the
business-rejection errors (unknown target contract, account not signed,
account not permitted), the worker answers a failed response carrying the
error's message and the worker state — in particular the connection entry of
both modes — is exactly what it was; only connection-fault-classified errors
touch connection state. -/
theorem business_rejection_frame (env : SjEnv) (st : WorkerState)
    (req : TradingRequest) (s : Nat) (e : PyErr)
    (hconn : st.apiClients.get req.simulation = some s)
    (hbiz : e.isBusinessTyped = true)
    (hps : env.positionsResult = .error e) :
    (req.operation = "place_entry_order" →
      ∀ sym qJ aJ c, req.params.lookup "symbol" = some (.str sym) →
      req.params.lookup "quantity" = some qJ →
      req.params.lookup "action" = some aJ →
      getContractFromSymbol env (.str sym) = .ok c →
      handleRequest env st req =
        ({ request_id := req.request_id, success := false,
           error := some e.msg }, st))
      ∧ (req.operation = "place_exit_order" →
        ∀ sym pdJ c, req.params.lookup "symbol" = some (.str sym) →
        req.params.lookup "position_direction" = some pdJ →
        getContractFromSymbol env (.str sym) = .ok c →
        handleRequest env st req =
          ({ request_id := req.request_id, success := false,
             error := some e.msg }, st)) := by
  constructor
  · intro hop sym qJ aJ c hsym hqty hact hcontract
    simp [handleRequest, getApiClient, hconn, dispatchOp, hop,
      handleEntryOrder, entryOrderAttempt, getParam, hsym, hqty, hact,
      hcontract, hps, hbiz, bind, Except.bind, pure, Except.pure]
  · intro hop sym pdJ c hsym hpd hcontract
    simp [handleRequest, getApiClient, hconn, dispatchOp, hop,
      handleExitOrder, exitOrderAttempt, getParam, hsym, hpd, hcontract,
      hps, hbiz, bind, Except.bind, pure, Except.pure]

/-- Environment in which listing positions is rejected because the account
is not signed. -/
def sjEnvRejected : SjEnv :=
  { sjEnvW with positionsResult := .error (.accountNotSign "account not signed") }

/-- C7 witness: the entry and exit requests both fail with the business
error's message and leave the connected worker state untouched. -/
theorem business_rejection_frame_witness :
    handleRequest sjEnvRejected stConnected entryReq =
        ({ request_id := "rid2", success := false,
           error := some "account not signed" }, stConnected)
      ∧ handleRequest sjEnvRejected stConnected exitReqBuy =
        ({ request_id := "rid3", success := false,
           error := some "account not signed" }, stConnected) :=
  ⟨(business_rejection_frame sjEnvRejected stConnected entryReq 1
      (.accountNotSign "account not signed") rfl rfl rfl).1 rfl
      "MXF" (.num 5) (.str "Buy") { symbol := "MXF", code := "MXF202501" }
      rfl rfl rfl rfl,
   (business_rejection_frame sjEnvRejected stConnected exitReqBuy 1
      (.accountNotSign "account not signed") rfl rfl rfl).2 rfl
      "MXF" (.str "Buy") { symbol := "MXF", code := "MXF202501" }
      rfl rfl rfl⟩

end Shioaji

namespace Shioaji

/-- Reading back the mode just written. -/
theorem ModeMap.get_set_self (m : ModeMap α) (mode : Bool) (a : α) :
    (m.set mode a).get mode = a := by
  cases mode <;> simp [ModeMap.get, ModeMap.set]

/-- Writing one mode leaves the other mode's entry alone. -/
theorem ModeMap.get_set_other (m : ModeMap α) (mode mode' : Bool) (a : α)
    (h : mode ≠ mode') : (m.set mode a).get mode' = m.get mode' := by
  cases mode <;> cases mode' <;> simp_all [ModeMap.get, ModeMap.set]

/-- Invalidation detaches the mode's session reference and leaves the
in-flight flag cleared, for every logout outcome. -/
theorem invalidateConnection_detach (env : SjEnv) (st : WorkerState)
    (mode : Bool) (hflag : st.invalidating.get mode = false) :
    (invalidateConnection env st mode).apiClients.get mode = none
      ∧ (invalidateConnection env st mode).invalidating.get mode = false := by
  unfold invalidateConnection
  rw [hflag]
  cases h2 : (st.apiClients.get mode).isNone with
  | true =>
    simp only [Bool.false_eq_true, if_false, h2, if_true]
    exact ⟨Option.isNone_iff_eq_none.mp h2, hflag⟩
  | false =>
    simp [h2, logoutEffect, ModeMap.get_set_self]

/-- `tryLogin` succeeds on its first attempt when that attempt does. -/
theorem tryLogin_first_ok (env : SjEnv) (simulation : Bool)
    (h : loginAttemptOnce env simulation 1 = .ok ()) :
    tryLogin env simulation 1 MAX_RECONNECT_ATTEMPTS = .ok () := by
  rw [MAX_RECONNECT_ATTEMPTS, show (10 : Nat) = 9 + 1 from rfl, tryLogin, h]

/-- C6: after a connection-fault error the runtime's reference to the faulted
mode is detached.  (i) `_invalidate_connection` sets the mode's session to
`none` whatever the logout attempt does — success, failure or timeout — and
ends with the in-flight flag clear; (ii) a subsequent request for a detached
mode goes through the login path and installs the environment's fresh
session, not any previous one; (iii) end to end, a request whose order
placement raises `TokenError` answers a connection-error failure and leaves
the mode's session detached. -/
theorem connection_fault_invalidates (env : SjEnv) (st : WorkerState)
    (req : TradingRequest) (sid : Nat) (sym actStr m : String) (q p : Int)
    (c : Contract) (ps : List Position) (a : Action)
    (hconn : st.apiClients.get req.simulation = some sid)
    (hflag : st.invalidating.get req.simulation = false)
    (hop : req.operation = "place_entry_order")
    (hsym : req.params.lookup "symbol" = some (.str sym))
    (hqty : req.params.lookup "quantity" = some (.num q))
    (hact : req.params.lookup "action" = some (.str actStr))
    (ha : a = if actStr = "Buy" then Action.Buy else Action.Sell)
    (hcontract : getContractFromSymbol env (.str sym) = .ok c)
    (hps : env.positionsResult = .ok ps)
    (hcur : (getCurrentPosition ps c).getD 0 = p)
    (hplace : env.placeOrder c (mkOrder a (entryOrderQuantity a p q))
      = .error (.tokenError m)) :
    ((invalidateConnection env st req.simulation).apiClients.get req.simulation
        = none
      ∧ (invalidateConnection env st req.simulation).invalidating.get
          req.simulation = false)
      ∧ (∀ st2 : WorkerState, st2.apiClients.get req.simulation = none →
        env.credsPresent = true →
        loginAttemptOnce env req.simulation 1 = .ok () →
        getApiClient env st2 req.simulation =
          .ok (env.freshSession,
            { st2 with
              apiClients :=
                st2.apiClients.set req.simulation (some env.freshSession),
              lastSuccessfulRequest :=
                st2.lastSuccessfulRequest.set req.simulation env.now }))
      ∧ handleRequest env st req =
        ({ request_id := req.request_id, success := false,
           error := some ("Connection error (TokenError): " ++ m) },
         invalidateConnection env st req.simulation) := by
  refine ⟨invalidateConnection_detach env st req.simulation hflag, ?_, ?_⟩
  · intro st2 hd hcreds hlogin
    unfold getApiClient
    rw [hd, hcreds]
    simp [tryLogin_first_ok env req.simulation hlogin]
  · have key : (if Json.eqStr (.str actStr) "Buy" then Action.Buy
        else Action.Sell) = a := by
      rw [ha]
      by_cases hbuy : actStr = "Buy" <;> simp [Json.eqStr, hbuy]
    simp [handleRequest, getApiClient, hconn, dispatchOp, hop,
      handleEntryOrder, entryOrderAttempt, getParam, hsym, hqty, hact, key,
      hcontract, hps, hcur, Json.toIntPy, hplace, PyErr.isBusinessTyped,
      handleRequestErr, PyErr.isTypedConnectionError, PyErr.typeName,
      PyErr.msg, bind, Except.bind, pure, Except.pure]

/-- Environment whose order placement call fails with a token error. -/
def sjEnvFault : SjEnv :=
  { sjEnvW with placeOrder := fun _ _ => .error (.tokenError "token expired") }

/-- Worker state with no session for either mode. -/
def stDetached : WorkerState :=
  { apiClients := { sim := none, real := none },
    pendingTrades := [],
    lastSuccessfulRequest := { sim := 0, real := 0 },
    invalidating := { sim := false, real := false } }

/-- C6 witness: the token-error entry request detaches the simulation
session and answers the connection-error failure; a later call on the
detached state logs in the fresh session 100. -/
theorem connection_fault_invalidates_witness :
    ((invalidateConnection sjEnvFault stConnected true).apiClients.get true
        = none
      ∧ (invalidateConnection sjEnvFault stConnected true).invalidating.get
          true = false)
      ∧ getApiClient sjEnvFault stDetached true =
        .ok (100,
          { stDetached with
            apiClients := stDetached.apiClients.set true (some 100),
            lastSuccessfulRequest :=
              stDetached.lastSuccessfulRequest.set true 0 })
      ∧ handleRequest sjEnvFault stConnected entryReq =
        ({ request_id := "rid2", success := false,
           error := some "Connection error (TokenError): token expired" },
         invalidateConnection sjEnvFault stConnected true) :=
  have h := connection_fault_invalidates sjEnvFault stConnected entryReq 1
    "MXF" "Buy" "token expired" 5 (-3)
    { symbol := "MXF", code := "MXF202501" }
    [{ code := "MXF202501", side := Action.Sell, direction := Action.Sell,
       quantity := 3 }] Action.Buy
    rfl rfl rfl rfl rfl rfl rfl rfl rfl rfl rfl
  ⟨h.1, h.2.1 stDetached rfl rfl rfl, h.2.2⟩

end Shioaji

namespace Shioaji

/-! ### Helper lemmas for the request/response protocol -/

/-- Request serialization round-trip (shared helper). -/
theorem req_json_roundtrip (r : TradingRequest) :
    TradingRequest.from_json r.to_json = some r := rfl

/-- A placed exit order's response echoes the request's id. -/
theorem placeExit_rid {env : SjEnv} {st : WorkerState} {req : TradingRequest}
    {contract : Contract} {action : Action} {quantity : Int}
    {resp : TradingResponse} {st' : WorkerState}
    (h : placeExit env st req contract action quantity = .ok (resp, st')) :
    resp.request_id = req.request_id := by
  unfold placeExit at h
  simp only [bind, Except.bind, pure, Except.pure] at h
  repeat' split at h
  all_goals
    first
    | exact Except.noConfusion h
    | (simp only [Except.ok.injEq, Prod.mk.injEq] at h
       obtain ⟨h1, h2⟩ := h
       subst h1
       rfl)

/-- A completed entry-order try block echoes the request's id. -/
theorem entryOrderAttempt_rid {env : SjEnv} {st : WorkerState}
    {req : TradingRequest} {symJ qJ aJ : Json}
    {resp : TradingResponse} {st' : WorkerState}
    (h : entryOrderAttempt env st req symJ qJ aJ = .ok (resp, st')) :
    resp.request_id = req.request_id := by
  unfold entryOrderAttempt at h
  simp only [bind, Except.bind, pure, Except.pure] at h
  repeat' split at h
  all_goals
    first
    | exact Except.noConfusion h
    | (simp only [Except.ok.injEq, Prod.mk.injEq] at h
       obtain ⟨h1, h2⟩ := h
       subst h1
       rfl)

/-- A completed exit-order try block echoes the request's id. -/
theorem exitOrderAttempt_rid {env : SjEnv} {st : WorkerState}
    {req : TradingRequest} {symJ pdJ : Json}
    {resp : TradingResponse} {st' : WorkerState}
    (h : exitOrderAttempt env st req symJ pdJ = .ok (resp, st')) :
    resp.request_id = req.request_id := by
  unfold exitOrderAttempt at h
  simp only [bind, Except.bind, pure, Except.pure] at h
  repeat' split at h
  all_goals
    first
    | exact Except.noConfusion h
    | exact placeExit_rid h
    | (simp only [Except.ok.injEq, Prod.mk.injEq] at h
       obtain ⟨h1, h2⟩ := h
       subst h1
       rfl)

/-- Every successful entry-order response echoes the request's id. -/
theorem handleEntryOrder_rid {env : SjEnv} {st : WorkerState}
    {req : TradingRequest} {resp : TradingResponse} {st' : WorkerState}
    (h : handleEntryOrder env st req = .ok (resp, st')) :
    resp.request_id = req.request_id := by
  unfold handleEntryOrder at h
  simp only [bind, Except.bind, pure, Except.pure] at h
  repeat' split at h
  all_goals
    first
    | exact Except.noConfusion h
    | (rename_i heq
       simp only [Except.ok.injEq] at h
       subst h
       exact entryOrderAttempt_rid heq)
    | (simp only [Except.ok.injEq, Prod.mk.injEq] at h
       obtain ⟨h1, h2⟩ := h
       subst h1
       rfl)

/-- Every successful exit-order response echoes the request's id. -/
theorem handleExitOrder_rid {env : SjEnv} {st : WorkerState}
    {req : TradingRequest} {resp : TradingResponse} {st' : WorkerState}
    (h : handleExitOrder env st req = .ok (resp, st')) :
    resp.request_id = req.request_id := by
  unfold handleExitOrder at h
  simp only [bind, Except.bind, pure, Except.pure] at h
  repeat' split at h
  all_goals
    first
    | exact Except.noConfusion h
    | (rename_i heq
       simp only [Except.ok.injEq] at h
       subst h
       exact exitOrderAttempt_rid heq)
    | (simp only [Except.ok.injEq, Prod.mk.injEq] at h
       obtain ⟨h1, h2⟩ := h
       subst h1
       rfl)

/-- Every successful status-check response echoes the request's id. -/
theorem handleCheckOrderStatus_rid {env : SjEnv} {st : WorkerState}
    {req : TradingRequest} {resp : TradingResponse} {st' : WorkerState}
    (h : handleCheckOrderStatus env st req = .ok (resp, st')) :
    resp.request_id = req.request_id := by
  unfold handleCheckOrderStatus at h
  simp only [bind, Except.bind, pure, Except.pure] at h
  repeat' split at h
  all_goals
    first
    | exact Except.noConfusion h
    | (simp only [Except.ok.injEq, Prod.mk.injEq] at h
       obtain ⟨h1, h2⟩ := h
       subst h1
       rfl)

/-- Every successfully dispatched response echoes the request's id. -/
theorem dispatchOp_rid {env : SjEnv} {st : WorkerState}
    {req : TradingRequest} {resp : TradingResponse} {st' : WorkerState}
    (h : dispatchOp env st req = .ok (resp, st')) :
    resp.request_id = req.request_id := by
  unfold dispatchOp at h
  simp only [bind, Except.bind, pure, Except.pure] at h
  repeat' split at h
  all_goals
    first
    | exact Except.noConfusion h
    | exact handleEntryOrder_rid h
    | exact handleExitOrder_rid h
    | exact handleCheckOrderStatus_rid h
    | (simp only [Except.ok.injEq, Prod.mk.injEq] at h
       obtain ⟨h1, h2⟩ := h
       subst h1
       rfl)

/-- The error classifier always echoes the request's id. -/
theorem handleRequestErr_rid (env : SjEnv) (st : WorkerState)
    (req : TradingRequest) (e : PyErr) :
    (handleRequestErr env st req e).1.request_id = req.request_id := by
  unfold handleRequestErr
  repeat' split
  all_goals rfl

/-- Whatever happens, the worker's response to a request carries that
request's id. -/
theorem handleRequest_rid (env : SjEnv) (st : WorkerState)
    (req : TradingRequest) :
    (handleRequest env st req).1.request_id = req.request_id := by
  unfold handleRequest
  split
  · exact handleRequestErr_rid env st req _
  · split
    · rename_i heq2
      exact dispatchOp_rid heq2
    · exact handleRequestErr_rid env _ req _

end Shioaji

namespace Shioaji

/-- Looking up a key after a dict write. -/
theorem lookup_dictInsert (key k : String) (v : α) (l : List (String × α)) :
    List.lookup k (dictInsert key v l)
      = if k = key then some v else List.lookup k l := by
  induction l with
  | nil =>
    by_cases h : k = key
    · simp [dictInsert, List.lookup, h]
    · simp [dictInsert, List.lookup, h, beq_eq_false_iff_ne.mpr h]
  | cons hd tl ih =>
    obtain ⟨k2, w⟩ := hd
    simp only [dictInsert]
    by_cases h1 : k2 = key
    · subst h1
      by_cases h2 : k = k2
      · simp [List.lookup, h2]
      · simp [List.lookup, h2, beq_eq_false_iff_ne.mpr h2]
    · simp only [if_neg h1]
      by_cases h2 : k = k2
      · subst h2
        simp [List.lookup, h1]
      · simp [List.lookup, beq_eq_false_iff_ne.mpr h2, ih]

/-- `rpush` appends one element at the written key and nothing else. -/
theorem listAt_rpush (r : RedisState) (key k : String) (v : Json) :
    listAt (rpush r key v) k
      = if k = key then listAt r key ++ [v] else listAt r k := by
  by_cases h : k = key <;> simp [listAt, rpush, lookup_dictInsert, h]

/-- `rpush` leaves every TTL alone. -/
theorem ttlAt_rpush (r : RedisState) (key k : String) (v : Json) :
    ttlAt (rpush r key v) k = ttlAt r k := rfl

/-- `expire` leaves every list alone. -/
theorem listAt_expire (r : RedisState) (key k : String) (secs : Nat) :
    listAt (expire r key secs) k = listAt r k := rfl

/-- `expire` sets exactly the written key's TTL. -/
theorem ttlAt_expire (r : RedisState) (key k : String) (secs : Nat) :
    ttlAt (expire r key secs) k
      = if k = key then some secs else ttlAt r k := by
  by_cases h : k = key <;> simp [ttlAt, expire, lookup_dictInsert, h]

/-- `blpop` on a non-empty list pops its head. -/
theorem blpop_cons (r : RedisState) (q : String) (v : Json) (rest : List Json)
    (h : listAt r q = v :: rest) :
    blpop r q = some (v, { r with lists := dictInsert q rest r.lists }) := by
  simp [blpop, h]

/-- Reading the store after the queue-head removal performed by `blpop`. -/
theorem listAt_popped (r : RedisState) (q k : String) (rest : List Json) :
    listAt { r with lists := dictInsert q rest r.lists } k
      = if k = q then rest else listAt r k := by
  by_cases h : k = q <;> simp [listAt, lookup_dictInsert, h]

end Shioaji

namespace Shioaji

/-- String concatenation cancels on the left. -/
theorem string_append_left_cancel (s a b : String) (h : s ++ a = s ++ b) :
    a = b := by
  have hd := congrArg String.data h
  simp only [String.data_append] at hd
  exact String.ext (List.append_cancel_left hd)

/-- A response key never collides with the request queue name. -/
theorem responseKey_ne_queue (tid rid : String) :
    responseKey tid rid ≠ requestQueueName tid := by
  intro h
  have hl := congrArg String.length h
  simp only [responseKey, requestQueueName, String.length_append] at hl
  have h1 : String.length "trading:response:" = 17 := rfl
  have h2 : String.length "trading:requests" = 16 := rfl
  omega

/-- Distinct correlation ids derive distinct response keys. -/
theorem responseKey_inj (tid a b : String)
    (h : responseKey tid a = responseKey tid b) : a = b := by
  unfold responseKey at h
  exact string_append_left_cancel _ _ _
    (by rwa [String.append_assoc, String.append_assoc] at h)

end Shioaji

namespace Shioaji

/-- One loop iteration that pops a parsable request: the exact effect on the
queue store.  (Shared helper behind the protocol claim.) -/
theorem runStep_spec (env : SjEnv) (tid : String) (st : WorkerState)
    (redis : RedisState) (item : Json) (rest : List Json)
    (req : TradingRequest)
    (hq : listAt redis (requestQueueName tid) = item :: rest)
    (hparse : TradingRequest.from_json item = some req) :
    (handleRequest env st req).1.request_id = req.request_id
      ∧ listAt (runStep env tid st redis).2
          (responseKey tid req.request_id)
        = listAt redis (responseKey tid req.request_id)
            ++ [((handleRequest env st req).1).to_json]
      ∧ ttlAt (runStep env tid st redis).2 (responseKey tid req.request_id)
        = some 60
      ∧ listAt (runStep env tid st redis).2 (requestQueueName tid) = rest
      ∧ (∀ k, k ≠ responseKey tid req.request_id →
          k ≠ requestQueueName tid →
          listAt (runStep env tid st redis).2 k = listAt redis k)
      ∧ (∀ k, k ≠ responseKey tid req.request_id →
          ttlAt (runStep env tid st redis).2 k = ttlAt redis k) := by
  have hkey := responseKey_ne_queue tid req.request_id
  have hb := blpop_cons redis (requestQueueName tid) item rest hq
  refine ⟨handleRequest_rid env st req, ?_, ?_, ?_, ?_, ?_⟩
  · simp only [runStep, hb, hparse]
    rw [listAt_expire, listAt_rpush, if_pos rfl, listAt_popped,
      if_neg hkey]
  · simp only [runStep, hb, hparse]
    rw [ttlAt_expire, if_pos rfl]
  · simp only [runStep, hb, hparse]
    rw [listAt_expire, listAt_rpush, if_neg (Ne.symm hkey), listAt_popped,
      if_pos rfl]
  · intro k hk hq2
    simp only [runStep, hb, hparse]
    rw [listAt_expire, listAt_rpush, if_neg hk, listAt_popped, if_neg hq2]
  · intro k hk
    simp only [runStep, hb, hparse]
    rw [ttlAt_expire, if_neg hk, ttlAt_rpush]
    rfl

end Shioaji

namespace Shioaji

/-- Keys that are neither the request queue nor a response key of any queued
request are untouched (contents and TTL) by any number of loop iterations. -/
theorem runSteps_frame (env : SjEnv) (tid : String) :
    ∀ (n : Nat) (st : WorkerState) (redis : RedisState) (k : String),
    k ≠ requestQueueName tid →
    (∀ item ∈ listAt redis (requestQueueName tid), ∀ req : TradingRequest,
        TradingRequest.from_json item = some req →
        k ≠ responseKey tid req.request_id) →
    listAt (runSteps env tid n (st, redis)).2 k = listAt redis k
      ∧ ttlAt (runSteps env tid n (st, redis)).2 k = ttlAt redis k := by
  intro n
  induction n with
  | zero => intro st redis k _ _; exact ⟨rfl, rfl⟩
  | succ n ih =>
    intro st redis k hk hmem
    have hunfold : runSteps env tid (n + 1) (st, redis)
        = runSteps env tid n (runStep env tid st redis) := rfl
    rw [hunfold]
    cases hq : listAt redis (requestQueueName tid) with
    | nil =>
      have hstep : runStep env tid st redis = (st, redis) := by
        simp [runStep, blpop, hq]
      rw [hstep]
      exact ih st redis k hk hmem
    | cons item rest =>
      have hb := blpop_cons redis (requestQueueName tid) item rest hq
      have hsub : ∀ item2 ∈ rest, item2 ∈ listAt redis (requestQueueName tid) := by
        intro item2 h2
        rw [hq]
        exact List.mem_cons_of_mem _ h2
      cases hparse : TradingRequest.from_json item with
      | none =>
        have hstep : runStep env tid st redis
            = (st, { redis with
                lists := dictInsert (requestQueueName tid) rest redis.lists }) := by
          simp [runStep, hb, hparse]
        rw [hstep]
        have hmem1 : ∀ item2 ∈ listAt { redis with
            lists := dictInsert (requestQueueName tid) rest redis.lists }
              (requestQueueName tid),
            ∀ req : TradingRequest, TradingRequest.from_json item2 = some req →
            k ≠ responseKey tid req.request_id := by
          intro item2 h2 req2 hp2
          rw [listAt_popped, if_pos rfl] at h2
          exact hmem item2 (hsub item2 h2) req2 hp2
        obtain ⟨hl, ht⟩ := ih st _ k hk hmem1
        rw [hl, listAt_popped, if_neg hk] at *
        exact ⟨rfl, ht⟩
      | some req =>
        have hkresp : k ≠ responseKey tid req.request_id :=
          hmem item (by rw [hq]; exact List.mem_cons_self _ _) req hparse
        have h2 : (runStep env tid st redis).2
            = expire (rpush { redis with
                  lists := dictInsert (requestQueueName tid) rest redis.lists }
                (responseKey tid req.request_id)
                ((handleRequest env st req).1).to_json)
                (responseKey tid req.request_id) 60 := by
          simp [runStep, hb, hparse]
        have hrw : runSteps env tid n (runStep env tid st redis)
            = runSteps env tid n
              ((runStep env tid st redis).1, (runStep env tid st redis).2) := rfl
        rw [hrw, h2]
        have hqueue2 : listAt (expire (rpush { redis with
              lists := dictInsert (requestQueueName tid) rest redis.lists }
            (responseKey tid req.request_id)
            ((handleRequest env st req).1).to_json)
            (responseKey tid req.request_id) 60) (requestQueueName tid)
            = rest := by
          rw [listAt_expire, listAt_rpush,
            if_neg (Ne.symm (responseKey_ne_queue tid req.request_id)),
            listAt_popped, if_pos rfl]
        have hmem2 : ∀ item2 ∈ listAt (expire (rpush { redis with
              lists := dictInsert (requestQueueName tid) rest redis.lists }
            (responseKey tid req.request_id)
            ((handleRequest env st req).1).to_json)
            (responseKey tid req.request_id) 60) (requestQueueName tid),
            ∀ req2 : TradingRequest,
            TradingRequest.from_json item2 = some req2 →
            k ≠ responseKey tid req2.request_id := by
          intro item2 h2m req2 hp2
          rw [hqueue2] at h2m
          exact hmem item2 (hsub item2 h2m) req2 hp2
        obtain ⟨hl, ht⟩ := ih _ _ k hk hmem2
        constructor
        · rw [hl, listAt_expire, listAt_rpush, if_neg hkresp, listAt_popped,
            if_neg hk]
        · rw [ht, ttlAt_expire, if_neg hkresp, ttlAt_rpush]
          rfl

end Shioaji

namespace Shioaji

/-- Processing a queue of requests with pairwise-distinct correlation ids
appends exactly one response, with the matching id and a 60-second expiry,
on each request's derived response key.  (Shared helper behind the protocol
claim.) -/
theorem runSteps_exactly_one (env : SjEnv) (tid : String) :
    ∀ (rs : List TradingRequest) (st : WorkerState) (redis : RedisState),
    listAt redis (requestQueueName tid) = rs.map TradingRequest.to_json →
    rs.Pairwise (fun a b => a.request_id ≠ b.request_id) →
    ∀ r ∈ rs, ∃ resp : TradingResponse,
      resp.request_id = r.request_id
      ∧ listAt (runSteps env tid rs.length (st, redis)).2
          (responseKey tid r.request_id)
        = listAt redis (responseKey tid r.request_id) ++ [resp.to_json]
      ∧ ttlAt (runSteps env tid rs.length (st, redis)).2
          (responseKey tid r.request_id) = some 60 := by
  intro rs
  induction rs with
  | nil =>
    intro st redis _ _ r hr
    cases hr
  | cons r0 rest ih =>
    intro st redis hq hpw r' hr'
    have hq0 : listAt redis (requestQueueName tid)
        = r0.to_json :: rest.map TradingRequest.to_json := by simpa using hq
    obtain ⟨hrid, hpush, httl, hqueue2, hframe, htframe⟩ :=
      runStep_spec env tid st redis r0.to_json
        (rest.map TradingRequest.to_json) r0 hq0 (req_json_roundtrip r0)
    have hunfold : runSteps env tid (r0 :: rest).length (st, redis)
        = runSteps env tid rest.length (runStep env tid st redis) := rfl
    have hpair : runSteps env tid rest.length (runStep env tid st redis)
        = runSteps env tid rest.length
          ((runStep env tid st redis).1, (runStep env tid st redis).2) := rfl
    rcases List.mem_cons.mp hr' with heq | hmem'
    · subst heq
      have hm : ∀ item ∈ listAt (runStep env tid st redis).2
            (requestQueueName tid),
          ∀ req2 : TradingRequest,
          TradingRequest.from_json item = some req2 →
          responseKey tid r'.request_id ≠ responseKey tid req2.request_id := by
        intro item hitem req2 hp2
        rw [hqueue2] at hitem
        obtain ⟨r2, hr2, rfl⟩ := List.mem_map.mp hitem
        rw [req_json_roundtrip r2] at hp2
        obtain rfl : r2 = req2 := Option.some.inj hp2
        intro hkeyeq
        exact (List.pairwise_cons.mp hpw).1 r2 hr2
          (responseKey_inj tid _ _ hkeyeq)
      obtain ⟨hfl, hft⟩ := runSteps_frame env tid rest.length
        (runStep env tid st redis).1 (runStep env tid st redis).2
        (responseKey tid r'.request_id)
        (responseKey_ne_queue tid r'.request_id) hm
      exact ⟨(handleRequest env st r').1, hrid, by rw [hunfold, hpair, hfl, hpush],
        by rw [hunfold, hpair, hft, httl]⟩
    · have hpw2 := (List.pairwise_cons.mp hpw).2
      obtain ⟨resp', hrid', hl', ht'⟩ := ih (runStep env tid st redis).1
        (runStep env tid st redis).2 hqueue2 hpw2 r' hmem'
      have hkne : responseKey tid r'.request_id
          ≠ responseKey tid r0.request_id := by
        intro hkeyeq
        exact (List.pairwise_cons.mp hpw).1 r' hmem'
          (responseKey_inj tid _ _ hkeyeq).symm
      refine ⟨resp', hrid', ?_, ?_⟩
      · rw [hunfold, hpair, hl',
          hframe (responseKey tid r'.request_id) hkne
            (responseKey_ne_queue tid r'.request_id)]
      · rw [hunfold, hpair, ht']

end Shioaji

namespace Shioaji

/-- C2: for every request popped from the request queue the worker produces
exactly one response — its `request_id` equals the popped request's, it is
pushed onto the response key derived from that id, and that key is given a
60-second expiry, while every other key's contents and TTL are untouched;
and across a whole queue of requests with pairwise-distinct ids, each id's
response key receives exactly one response (never two). -/
theorem request_response_protocol :
    (∀ (env : SjEnv) (tid : String) (st : WorkerState) (redis : RedisState)
        (item : Json) (rest : List Json) (req : TradingRequest),
      listAt redis (requestQueueName tid) = item :: rest →
      TradingRequest.from_json item = some req →
      (handleRequest env st req).1.request_id = req.request_id
        ∧ listAt (runStep env tid st redis).2 (responseKey tid req.request_id)
          = listAt redis (responseKey tid req.request_id)
              ++ [((handleRequest env st req).1).to_json]
        ∧ ttlAt (runStep env tid st redis).2 (responseKey tid req.request_id)
          = some 60
        ∧ listAt (runStep env tid st redis).2 (requestQueueName tid) = rest
        ∧ (∀ k, k ≠ responseKey tid req.request_id →
            k ≠ requestQueueName tid →
            listAt (runStep env tid st redis).2 k = listAt redis k)
        ∧ (∀ k, k ≠ responseKey tid req.request_id →
            ttlAt (runStep env tid st redis).2 k = ttlAt redis k))
      ∧ (∀ (env : SjEnv) (tid : String) (rs : List TradingRequest)
          (st : WorkerState) (redis : RedisState),
        listAt redis (requestQueueName tid) = rs.map TradingRequest.to_json →
        rs.Pairwise (fun a b => a.request_id ≠ b.request_id) →
        ∀ r ∈ rs, ∃ resp : TradingResponse,
          resp.request_id = r.request_id
          ∧ listAt (runSteps env tid rs.length (st, redis)).2
              (responseKey tid r.request_id)
            = listAt redis (responseKey tid r.request_id) ++ [resp.to_json]
          ∧ ttlAt (runSteps env tid rs.length (st, redis)).2
              (responseKey tid r.request_id) = some 60) :=
  ⟨fun env tid st redis item rest req hq hp =>
    runStep_spec env tid st redis item rest req hq hp,
   fun env tid rs st redis hq hpw =>
    runSteps_exactly_one env tid rs st redis hq hpw⟩

/-- A ping request with correlation id `aaa`. -/
def reqA : TradingRequest := ⟨"aaa", "ping", true, []⟩

/-- A ping request with correlation id `bbb`. -/
def reqB : TradingRequest := ⟨"bbb", "ping", true, []⟩

/-- Store holding the two serialized ping requests on tenant `t1`'s request
queue. -/
def redisW : RedisState :=
  { lists := [(requestQueueName "t1", [reqA.to_json, reqB.to_json])],
    ttl := [] }

/-- C2 witness: popping the first ping produces its one response on
`tenant:t1:trading:response:aaa` with a 60-second expiry, and processing the
whole two-request queue yields exactly one response per id. -/
theorem request_response_protocol_witness :
    ((handleRequest sjEnvW stConnected reqA).1.request_id = "aaa"
      ∧ listAt (runStep sjEnvW "t1" stConnected redisW).2
          (responseKey "t1" "aaa")
        = [((handleRequest sjEnvW stConnected reqA).1).to_json]
      ∧ ttlAt (runStep sjEnvW "t1" stConnected redisW).2
          (responseKey "t1" "aaa") = some 60)
      ∧ (∀ r ∈ [reqA, reqB], ∃ resp : TradingResponse,
        resp.request_id = r.request_id
        ∧ listAt (runSteps sjEnvW "t1" 2 (stConnected, redisW)).2
            (responseKey "t1" r.request_id) = [resp.to_json]
        ∧ ttlAt (runSteps sjEnvW "t1" 2 (stConnected, redisW)).2
            (responseKey "t1" r.request_id) = some 60) := by
  have ha := request_response_protocol.1 sjEnvW "t1" stConnected redisW
    reqA.to_json [reqB.to_json] reqA rfl rfl
  have hb := request_response_protocol.2 sjEnvW "t1" [reqA, reqB] stConnected
    redisW rfl (by simp [reqA, reqB])
  refine ⟨⟨ha.1, ?_, ha.2.2.1⟩, ?_⟩
  · have h2 := ha.2.1
    simpa using h2
  · intro r hr
    obtain ⟨resp, h1, h2, h3⟩ := hb r hr
    refine ⟨resp, h1, ?_, h3⟩
    rcases List.mem_cons.mp hr with heq | hr2
    · subst heq
      simpa using h2
    · rcases List.mem_cons.mp hr2 with heq | hr3
      · subst heq
        simpa using h2
      · cases hr3

end Shioaji
